import Mathlib

/-!
Shallow embedding of the inventory core of `telecable_almacen`
(`src/inventario/models.py` and `src/inventario/services/`).

Database tables are modelled as lists of rows; a Django ORM operation
becomes a function `DB → Except AppError DB` (or with a result value).
`transaction.atomic` is modelled by the `attempt` wrappers: on error the
caller keeps the original database (rollback), on success the new one.
Timestamps are abstract `Nat` ticks (`DB.now`); `Decimal` money amounts
are modelled as `Int` (the claims only compare them for equality).
-/

namespace Telecable

/-- Error taxonomy: Django's `ValidationError` / `PermissionDenied` and the
`DoesNotExist` / `IntegrityError` exceptions that abort a transaction. -/
inductive AppError where
  | validation (msg : String)
  | permissionDenied (msg : String)
  | doesNotExist (msg : String)
  | integrityError (msg : String)
  deriving Repr, DecidableEq

/-- `Sede.TIPO_CHOICES` (models.py:42-44). -/
inductive TipoSede where
  | CENTRAL
  | SECUNDARIO
  deriving Repr, DecidableEq

/-- `Sede` (models.py:37-66); only the fields the core logic reads. -/
structure Sede where
  id : Nat
  nombre : String
  tipo : TipoSede
  activo : Bool
  deriving Repr, DecidableEq

/-- `Ubicacion` (models.py:81-102); informational, but `clean` checks that
it belongs to the document's sede. -/
structure Ubicacion where
  id : Nat
  sede : Nat
  deriving Repr, DecidableEq

/-- `Producto` (models.py:105-186); only the fields the ledger reads. -/
structure Producto where
  id : Nat
  costo_unitario : Int
  activo : Bool
  deriving Repr, DecidableEq

/-- `Stock` (models.py:214-235): quantity per (producto, sede). -/
structure Stock where
  producto : Nat
  sede : Nat
  cantidad : Int
  actualizado_en_operacion : Nat
  deriving Repr, DecidableEq

/-- `MovimientoInventario.TIPOS` (models.py:245-252). -/
inductive TipoMovimiento where
  | IN
  | OUT
  | ADJ
  deriving Repr, DecidableEq

/-- `MovimientoInventario` (models.py:238-301): one kardex line.  Note the
row carries NO resulting-balance field: qty, costs, reference and note are
all it stores. -/
structure MovimientoInventario where
  producto : Nat
  sede : Nat
  ubicacion : Option Nat
  tipo : TipoMovimiento
  qty : Int
  costo_unitario : Option Int
  costo_total : Option Int
  referencia : String
  nota : String
  deriving Repr, DecidableEq

/-- `TipoDocumento` (models.py:433-437). -/
inductive TipoDocumento where
  | REQ
  | SAL
  | ING
  | MER
  deriving Repr, DecidableEq

/-- `EstadoDocumento` (models.py:440-450). -/
inductive EstadoDocumento where
  | REQ_BORRADOR
  | REQ_PENDIENTE
  | REQ_ATENDIDO
  | REQ_RECHAZADO
  | BORRADOR
  | CONFIRMADO
  | ANULADO
  deriving Repr, DecidableEq

/-- `TipoRequerimiento` (models.py:453-456). -/
inductive TipoRequerimiento where
  | LOCAL
  | PROVEEDOR
  | ENTRE_SEDES
  deriving Repr, DecidableEq

/-- `Correlativo` (models.py:459-464): per-type sequence counter. -/
structure Correlativo where
  tipo : TipoDocumento
  ultimo_numero : Nat
  deriving Repr, DecidableEq

/-- `DocumentoInventario` (models.py:467-526). -/
structure DocumentoInventario where
  id : Nat
  tipo : TipoDocumento
  numero : Option String
  fecha : Nat
  sede : Option Nat
  ubicacion : Option Nat
  sede_origen : Option Nat
  sede_destino : Option Nat
  proveedor : Option Nat
  centro_costo : String
  responsable : Nat
  entregado_por : Option Nat
  estado : EstadoDocumento
  observaciones : String
  origen : Option Nat
  recibido : Bool
  recibido_por : Option Nat
  recibido_en : Option Nat
  tipo_requerimiento : TipoRequerimiento
  deriving Repr, DecidableEq

/-- `DocumentoItem` (models.py:758-791). -/
structure DocumentoItem where
  documento : Nat
  producto : Nat
  cantidad : Nat
  costo_unitario : Option Int
  observacion : String
  cantidad_devuelta : Nat
  cantidad_merma : Nat
  cantidad_usada : Nat
  deriving Repr, DecidableEq

/-- `UserProfile.Rol` (models.py:327-331). -/
inductive Rol where
  | SOLICITANTE
  | ALMACEN
  | ADMIN
  | JEFA
  deriving Repr, DecidableEq

/-- `UserProfile` (models.py:326-369). -/
structure UserProfile where
  user : Nat
  rol : Rol
  sede_principal : Option Nat
  sede_activa : Option Nat
  sedes_permitidas : List Nat
  creado_en : Nat
  deriving Repr, DecidableEq

/-- The database: one list of rows per table, a fresh-primary-key counter
for documents, and the current clock tick (`timezone.now()`). -/
structure DB where
  sedes : List Sede
  ubicaciones : List Ubicacion
  productos : List Producto
  stocks : List Stock
  movimientos : List MovimientoInventario
  documentos : List DocumentoInventario
  items : List DocumentoItem
  correlativos : List Correlativo
  profiles : List UserProfile
  nextDocId : Nat
  now : Nat
  deriving Repr, DecidableEq

/-- The ORM's `get_or_create` + `save` pattern on a keyed table: update the
rows matching `f` with `g` when one exists, otherwise insert `mk`. -/
def upsertBy (f : α → Bool) (g : α → α) (mk : α) (l : List α) : List α :=
  if l.any f then l.map (fun a => if f a then g a else a) else l ++ [mk]

namespace DB

def findSede (db : DB) (id : Nat) : Option Sede :=
  db.sedes.find? (fun s => s.id = id)

def findUbicacion (db : DB) (id : Nat) : Option Ubicacion :=
  db.ubicaciones.find? (fun u => u.id = id)

def findProducto (db : DB) (id : Nat) : Option Producto :=
  db.productos.find? (fun p => p.id = id)

def findDoc (db : DB) (id : Nat) : Option DocumentoInventario :=
  db.documentos.find? (fun d => d.id = id)

def findProfile (db : DB) (userId : Nat) : Option UserProfile :=
  db.profiles.find? (fun p => p.user = userId)

/-- `doc.items.all()`: the lines of a document, in insertion order. -/
def itemsOf (db : DB) (docId : Nat) : List DocumentoItem :=
  db.items.filter (fun it => it.documento = docId)

/-- Current quantity of the (producto, sede) stock row; 0 when the row
does not exist yet (mirrors `get_or_create(defaults={"cantidad": 0})`). -/
def stockQty (db : DB) (p s : Nat) : Int :=
  match db.stocks.find? (fun st => st.producto = p ∧ st.sede = s) with
  | some st => st.cantidad
  | none => 0

/-- Write quantity `q` to the (producto, sede) stock row, stamping the
operation timestamp; creates the row when absent
(`get_or_create` + `stock.save()` in `aplicar`, models.py:305-320). -/
def setStock (db : DB) (p s : Nat) (q : Int) : DB :=
  let stocks2 := upsertBy
    (fun st => decide (st.producto = p ∧ st.sede = s))
    (fun st => { st with cantidad := q, actualizado_en_operacion := db.now })
    { producto := p, sede := s, cantidad := q,
      actualizado_en_operacion := db.now }
    db.stocks
  { db with stocks := stocks2 }

/-- Replace the document row with the same id (`doc.save()`). -/
def updateDoc (db : DB) (d : DocumentoInventario) : DB :=
  { db with documentos := db.documentos.map (fun x => if x.id = d.id then d else x) }

end DB

/-- `Producto.objects` lookup of a standard unit cost; the FK always
resolves in the real database, so a missing row degrades to cost 0. -/
def productoCosto (db : DB) (p : Nat) : Int :=
  match db.findProducto p with
  | some prod => prod.costo_unitario
  | none => 0

namespace MovimientoInventario

/-- `MovimientoInventario.clean` (models.py:285-291). -/
def clean (m : MovimientoInventario) : Except AppError Unit :=
  if (m.tipo = TipoMovimiento.IN ∨ m.tipo = TipoMovimiento.OUT) ∧ m.qty ≤ 0 then
    .error (.validation "IN/OUT requieren qty > 0.")
  else if m.tipo = TipoMovimiento.ADJ ∧ m.qty = 0 then
    .error (.validation "ADJ requiere qty distinto de 0.")
  else
    .ok ()

/-- `MovimientoInventario.save` (models.py:293-301): default the unit cost
from the product and recompute `costo_total = |qty| * costo_unitario`. -/
def saveDefaults (db : DB) (m : MovimientoInventario) : MovimientoInventario :=
  let cu : Int :=
    match m.costo_unitario with
    | some c => c
    | none => productoCosto db m.producto
  { m with costo_unitario := some cu, costo_total := some (|m.qty| * cu) }

/-- `MovimientoInventario.aplicar` (models.py:303-320): lock/create the
stock row, add the kind-signed quantity, reject if the result would be
negative, persist the stock row.  The movement row itself is not touched. -/
def aplicar (m : MovimientoInventario) (db : DB) : Except AppError DB :=
  let old := db.stockQty m.producto m.sede
  let nuevo : Int :=
    match m.tipo with
    | .IN => old + m.qty
    | .OUT => old - m.qty
    | .ADJ => old + m.qty
  if nuevo < 0 then
    .error (.validation "No hay stock suficiente para esta operación.")
  else
    .ok (db.setStock m.producto m.sede nuevo)

/-- The database as the caller sees it after attempting `aplicar` inside
`transaction.atomic`: unchanged on rollback. -/
def aplicarAttempt (m : MovimientoInventario) (db : DB) : DB :=
  match aplicar m db with
  | .ok db2 => db2
  | .error _ => db

end MovimientoInventario

/-- The kind-signed delta of a movement as the spec words it
(IN: +qty; OUT: -qty; ADJUST: +signed qty). -/
def kindSignedDelta (m : MovimientoInventario) : Int :=
  match m.tipo with
  | .IN => m.qty
  | .OUT => -m.qty
  | .ADJ => m.qty

/-- `MovimientoInventario.objects.create(...)` followed immediately by
`mov.aplicar()` — the only way the live code produces kardex rows
(models.py:643-653 and tests.py). The saved row is appended in
application order. -/
def createAndApply (m : MovimientoInventario) (db : DB) : Except AppError DB :=
  let saved := MovimientoInventario.saveDefaults db m
  let db1 := { db with movimientos := db.movimientos ++ [saved] }
  MovimientoInventario.aplicar saved db1

/-- `createAndApply` under `transaction.atomic`: rollback keeps `db`. -/
def createAndApplyAttempt (m : MovimientoInventario) (db : DB) : DB :=
  match createAndApply m db with
  | .ok db2 => db2
  | .error _ => db

def TipoDocumento.code : TipoDocumento → String
  | .REQ => "REQ"
  | .SAL => "SAL"
  | .ING => "ING"
  | .MER => "MER"

/-- Zero-pad a decimal string to width `w` (Python's `{n:010d}`). -/
def padZeros (w : Nat) (s : String) : String :=
  String.mk (List.replicate (w - s.length) '0') ++ s

namespace DocumentoInventario

/-- `_formatear_numero` (models.py:575-576): `f"{self.tipo}-{n:010d}"`. -/
def formatearNumero (tipo : TipoDocumento) (correlativo : Nat) : String :=
  tipo.code ++ "-" ++ padZeros 10 (toString correlativo)

/-- `asignar_numero_si_falta` (models.py:578-587): no-op when a number is
already assigned; otherwise lock/create the per-type `Correlativo`,
increment it, persist it, and stamp the formatted number on the document.
Returns the updated document row together with the database. -/
def asignarNumeroSiFalta (doc : DocumentoInventario) (db : DB) :
    DocumentoInventario × DB :=
  match doc.numero with
  | some _ => (doc, db)
  | none =>
    let ultimo : Nat :=
      match db.correlativos.find? (fun c => c.tipo = doc.tipo) with
      | some c => c.ultimo_numero
      | none => 0
    let nuevo := ultimo + 1
    let corrs := upsertBy
      (fun c => decide (c.tipo = doc.tipo))
      (fun c => { c with ultimo_numero := nuevo })
      { tipo := doc.tipo, ultimo_numero := nuevo }
      db.correlativos
    let doc2 := { doc with numero := some (formatearNumero doc.tipo nuevo) }
    (doc2, (DB.updateDoc { db with correlativos := corrs } doc2))

/-- `DocumentoInventario.clean` (models.py:531-573): sede required,
ubicacion must belong to the sede, and the three requisition-kind rules. -/
def clean (db : DB) (doc : DocumentoInventario) : Except AppError Unit :=
  if doc.tipo = TipoDocumento.REQ ∧ doc.sede = none then
    .error (.validation "REQ requiere sede (almacén solicitante).")
  else if doc.tipo ≠ TipoDocumento.REQ ∧ doc.sede = none then
    .error (.validation "Este documento requiere sede (almacén).")
  else if (match doc.ubicacion, doc.sede with
           | some u, some s =>
             match db.findUbicacion u with
             | some ub => decide (ub.sede ≠ s)
             | none => false
           | _, _ => false) = true then
    .error (.validation "La ubicación no pertenece a la sede seleccionada.")
  else if doc.tipo ≠ TipoDocumento.REQ then
    .ok ()
  else
    match doc.tipo_requerimiento with
    | .LOCAL =>
      if doc.proveedor.isSome then
        .error (.validation "REQ LOCAL no debe tener proveedor.")
      else if doc.sede_destino.isSome then
        .error (.validation "REQ LOCAL no usa sede_destino.")
      else
        .ok ()
    | .PROVEEDOR =>
      if (match doc.sede.bind db.findSede with
          | some sede => decide (sede.tipo ≠ TipoSede.CENTRAL)
          | none => false) = true then
        .error (.validation "Solo la sede CENTRAL puede generar REQ a PROVEEDOR.")
      else if doc.proveedor = none then
        .error (.validation "REQ a PROVEEDOR requiere proveedor.")
      else if doc.sede_destino.isSome then
        .error (.validation "REQ a PROVEEDOR no usa sede_destino.")
      else
        .ok ()
    | .ENTRE_SEDES =>
      if (match doc.sede.bind db.findSede with
          | some sede => decide (sede.tipo = TipoSede.CENTRAL)
          | none => false) = true then
        .error (.validation "La sede CENTRAL no debe generar REQ 'ENTRE SEDES'.")
      else
        match doc.sede_destino with
        | none =>
          .error (.validation "REQ entre sedes requiere sede_destino CENTRAL (Jauja).")
        | some d =>
          match db.findSede d with
          | none => .error (.doesNotExist "sede_destino inexistente")
          | some sd =>
            if sd.tipo ≠ TipoSede.CENTRAL then
              .error (.validation "Destino debe ser CENTRAL (Jauja).")
            else if doc.proveedor.isSome then
              .error (.validation "REQ entre sedes no debe tener proveedor.")
            else
              .ok ()

/-- `enviar_req` (models.py:589-603): submit a draft requisition.  Checks
type/state/lines, runs `full_clean`, assigns a number and moves the
document to `REQ_PENDIENTE`. -/
def enviarReqBody (docId : Nat) (db : DB) : Except AppError DB :=
  match db.findDoc docId with
  | none => .error (.doesNotExist "DocumentoInventario no existe")
  | some doc =>
    if doc.tipo ≠ TipoDocumento.REQ then
      .error (.validation "Solo un REQ puede enviarse.")
    else if doc.estado ≠ EstadoDocumento.REQ_BORRADOR then
      .error (.validation "Solo puedes enviar un REQ en borrador.")
    else if db.itemsOf docId = [] then
      .error (.validation "No puedes enviar un REQ sin ítems.")
    else
      match clean db doc with
      | .error e => .error e
      | .ok _ =>
        let (doc2, db2) := asignarNumeroSiFalta doc db
        .ok (db2.updateDoc { doc2 with estado := EstadoDocumento.REQ_PENDIENTE })

/-- `enviar_req` under `transaction.atomic`. -/
def enviarReqAttempt (docId : Nat) (db : DB) : DB :=
  match enviarReqBody docId db with
  | .ok db2 => db2
  | .error _ => db

/-- `_get_usuario_almacen_de_sede` (models.py:605-612): the ALMACEN profile
anchored at `sede`, earliest by `creado_en`. -/
def getUsuarioAlmacenDeSede (db : DB) (sede : Nat) : Option Nat :=
  let candidatos := db.profiles.filter
    (fun p => p.rol = Rol.ALMACEN ∧ p.sede_principal = some sede)
  match candidatos with
  | [] => none
  | p :: ps =>
    some (ps.foldl (fun best q => if q.creado_en < best.creado_en then q else best) p).user

/-- `DocumentoItem.save` (models.py:788-791): default the unit cost from
the product when unset. -/
def itemSaveDefaults (db : DB) (it : DocumentoItem) : DocumentoItem :=
  match it.costo_unitario with
  | some _ => it
  | none => { it with costo_unitario := some (productoCosto db it.producto) }

/-- models.py:634-641: the movement kind a document type confirms with
(`ING` → IN, `SAL`/`MER` → OUT; a REQ reaches the unsupported-type error). -/
def movTipoDe : TipoDocumento → Option TipoMovimiento
  | .ING => some TipoMovimiento.IN
  | .SAL => some TipoMovimiento.OUT
  | .MER => some TipoMovimiento.OUT
  | .REQ => none

/-- The per-line loop of `confirmar` (models.py:633-653): for each line
build a movement referencing the document number, persist it and apply it
to the stock. -/
def aplicarItemsLoop (tipoDoc : TipoDocumento) (sede : Nat) (ubic : Option Nat)
    (numero : String) : List DocumentoItem → DB → Except AppError DB
  | [], db => .ok db
  | it :: rest, db =>
    match movTipoDe tipoDoc with
    | none => .error (.validation "Tipo no soportado para confirmar.")
    | some mt =>
      let mov : MovimientoInventario :=
        { producto := it.producto, sede := sede, ubicacion := ubic, tipo := mt,
          qty := (it.cantidad : Int), costo_unitario := it.costo_unitario,
          costo_total := none, referencia := numero, nota := it.observacion }
      match createAndApply mov db with
      | .error e => .error e
      | .ok db2 => aplicarItemsLoop tipoDoc sede ubic numero rest db2

/-- models.py:705-718: confirming an ING derived from a CONFIRMADO SAL
transfer targeting this sede marks that SAL as received. -/
def ingRecibidoCascade (doc2 : DocumentoInventario) (db : DB) : DB :=
  if doc2.tipo = TipoDocumento.ING then
    match doc2.origen with
    | some salId =>
      match db.findDoc salId with
      | some sal =>
        if sal.tipo = TipoDocumento.SAL ∧
            sal.estado = EstadoDocumento.CONFIRMADO ∧
            sal.sede_destino = doc2.sede ∧ sal.recibido = false then
          let sal2 := { sal with
            recibido := true
            recibido_por := some doc2.responsable
            recibido_en := some db.now }
          db.updateDoc sal2
        else db
      | none => db
    | none => db
  else db

/-- models.py:661-666: confirming a SAL whose origin is a PENDING REQ
marks that REQ as attended. -/
def reqAtendidoCascade (doc2 : DocumentoInventario) (db : DB) : DB :=
  if doc2.tipo = TipoDocumento.SAL then
    match doc2.origen with
    | some reqId =>
      match db.findDoc reqId with
      | some req =>
        if req.tipo = TipoDocumento.REQ ∧
            req.estado = EstadoDocumento.REQ_PENDIENTE then
          db.updateDoc { req with estado := EstadoDocumento.REQ_ATENDIDO }
        else db
      | none => db
    | none => db
  else db

/-- The cascade ING document created at models.py:682-694: DRAFT at the
destination sede, origin pointing back at the SAL. -/
def ingTransfer (docId : Nat) (doc2 : DocumentoInventario) (numero : String)
    (db4 : DB) (s d : Nat) : DocumentoInventario :=
  { id := db4.nextDocId, tipo := TipoDocumento.ING,
    numero := none, fecha := db4.now,
    sede := some d, ubicacion := none,
    sede_origen := some s, sede_destino := some d,
    proveedor := none, centro_costo := doc2.centro_costo,
    responsable := (getUsuarioAlmacenDeSede db4 d).getD doc2.responsable,
    entregado_por := none,
    estado := EstadoDocumento.BORRADOR,
    observaciones := "ING generado por transferencia desde " ++ numero,
    origen := some docId, recibido := false,
    recibido_por := none, recibido_en := none,
    tipo_requerimiento := TipoRequerimiento.LOCAL }

/-- The tail of `confirmar` (models.py:655-718) once every line's movement
has been applied: persist CONFIRMADO, mark the origin REQ attended, run
the inter-sede transfer cascade (CENTRAL-only guard, existing-ING
idempotency check, mirrored lines) and the ING-received marking. -/
def confirmarCascades (docId : Nat) (doc2 : DocumentoInventario)
    (items : List DocumentoItem) (numero : String) (dbL : DB) :
    Except AppError DB :=
  let db3 := dbL.updateDoc doc2
  let db4 := reqAtendidoCascade doc2 db3
  if doc2.tipo = TipoDocumento.SAL ∧
      doc2.sede.isSome ∧ doc2.sede_destino.isSome ∧
      doc2.sede_destino ≠ doc2.sede then
    match doc2.sede, doc2.sede_destino with
    | some s, some d =>
      match db4.findSede s with
      | none => .error (.doesNotExist "Sede no existe")
      | some sede =>
        if sede.tipo ≠ TipoSede.CENTRAL then
          .error (.validation "Solo la sede CENTRAL puede despachar transferencias.")
        else
          let yaExisteIng := db4.documentos.any
            (fun dd => dd.tipo = TipoDocumento.ING ∧ dd.origen = some docId)
          if yaExisteIng then
            .ok (ingRecibidoCascade doc2 db4)
          else
            let ing : DocumentoInventario := ingTransfer docId doc2 numero db4 s d
            let db5 := { db4 with
              documentos := db4.documentos ++ [ing],
              nextDocId := db4.nextDocId + 1 }
            let nuevos := items.map (fun it => itemSaveDefaults db5
              { documento := ing.id, producto := it.producto,
                cantidad := it.cantidad,
                costo_unitario := it.costo_unitario,
                observacion := "Recepción de " ++ numero,
                cantidad_devuelta := 0, cantidad_merma := 0,
                cantidad_usada := 0 })
            let db6 := { db5 with items := db5.items ++ nuevos }
            .ok (ingRecibidoCascade doc2 db6)
    | _, _ => .error (.doesNotExist "unreachable")
  else
    .ok (ingRecibidoCascade doc2 db4)

/-- models.py:655-656: `if entregado_por: self.entregado_por = entregado_por`. -/
def entregadoPorFinal (ep : Option Nat) (cur : Option Nat) : Option Nat :=
  match ep with
  | some u => some u
  | none => cur

/-- `confirmar` (models.py:614-718), the body inside `transaction.atomic`:
state checks, number assignment, one movement per line applied to stock,
then CONFIRMADO and the cascades. -/
def confirmarBody (docId : Nat) (entregadoPor : Option Nat) (db : DB) :
    Except AppError DB :=
  match db.findDoc docId with
  | none => .error (.doesNotExist "DocumentoInventario no existe")
  | some doc =>
    if doc.tipo = TipoDocumento.REQ then
      .error (.validation "Un REQ no se confirma; se envía y luego se atiende.")
    else if doc.estado ≠ EstadoDocumento.BORRADOR then
      .error (.validation "Solo se puede confirmar un documento en BORRADOR.")
    else
      let items := db.itemsOf docId
      if items = [] then
        .error (.validation "No puedes confirmar un documento sin ítems.")
      else
        let (doc1, db1) := asignarNumeroSiFalta doc db
        match doc1.sede with
        | none => .error (.integrityError "MovimientoInventario.sede no puede ser NULL")
        | some sedeId =>
          let numero := doc1.numero.getD ""
          match aplicarItemsLoop doc1.tipo sedeId doc1.ubicacion numero items db1 with
          | .error e => .error e
          | .ok db2 =>
            let doc2 : DocumentoInventario :=
              { doc1 with
                entregado_por := entregadoPorFinal entregadoPor doc1.entregado_por,
                estado := EstadoDocumento.CONFIRMADO }
            confirmarCascades docId doc2 items numero db2

/-- `confirmar` under `transaction.atomic`: rollback keeps `db`. -/
def confirmarAttempt (docId : Nat) (entregadoPor : Option Nat) (db : DB) : DB :=
  match confirmarBody docId entregadoPor db with
  | .ok db2 => db2
  | .error _ => db

/-- `generar_salida_desde_req` (models.py:720-755): build a DRAFT SAL from
a PENDING REQ, destination = the REQ's own sede, lines copied 1:1. -/
def generarSalidaDesdeReq (reqDoc : DocumentoInventario) (responsable : Option Nat)
    (sedeSalida : Nat) (ubicacion : Option Nat) (db : DB) :
    Except AppError (Nat × DB) :=
  if reqDoc.tipo ≠ TipoDocumento.REQ then
    .error (.validation "Solo un REQ puede generar una SAL.")
  else if reqDoc.estado ≠ EstadoDocumento.REQ_PENDIENTE then
    .error (.validation "Solo REQ PENDIENTE puede convertirse en SAL.")
  else if (match ubicacion with
           | some u =>
             match db.findUbicacion u with
             | some ub => decide (ub.sede ≠ sedeSalida)
             | none => false
           | none => false) = true then
    .error (.validation "La ubicación no pertenece a la sede de salida.")
  else
    let sal : DocumentoInventario :=
      { id := db.nextDocId, tipo := TipoDocumento.SAL, numero := none,
        fecha := db.now, sede := some sedeSalida, ubicacion := ubicacion,
        sede_origen := some sedeSalida, sede_destino := reqDoc.sede,
        proveedor := none, centro_costo := reqDoc.centro_costo,
        responsable := responsable.getD reqDoc.responsable,
        entregado_por := none, estado := EstadoDocumento.BORRADOR,
        observaciones := "Generado desde " ++ reqDoc.numero.getD "REQ sin número",
        origen := some reqDoc.id, recibido := false, recibido_por := none,
        recibido_en := none, tipo_requerimiento := TipoRequerimiento.LOCAL }
    let db1 := { db with
      documentos := db.documentos ++ [sal], nextDocId := db.nextDocId + 1 }
    let nuevos := (db.itemsOf reqDoc.id).map (fun it => itemSaveDefaults db1
      { documento := sal.id, producto := it.producto, cantidad := it.cantidad,
        costo_unitario := it.costo_unitario, observacion := it.observacion,
        cantidad_devuelta := 0, cantidad_merma := 0, cantidad_usada := 0 })
    .ok (sal.id, { db1 with items := db1.items ++ nuevos })

end DocumentoInventario

/-- `order_by("-fecha").first()`: the row with the largest `fecha`. -/
def latestByFecha : List DocumentoInventario → Option DocumentoInventario
  | [] => none
  | d :: ds =>
    some (ds.foldl (fun best q => if best.fecha < q.fecha then q else best) d)

/-- `UserProfile.get_sede_operativa` (models.py:364-369). -/
def sedeOperativa (db : DB) (p : UserProfile) : Option Sede :=
  match p.sede_principal with
  | some s => db.findSede s
  | none =>
    match p.sede_activa with
    | some s => db.findSede s
    | none => p.sedes_permitidas.head?.bind db.findSede

/-- `_get_sede_central` (req_service.py:36-42): the active CENTRAL sede,
first by name. -/
def getSedeCentral (db : DB) : Option Sede :=
  match db.sedes.filter (fun s => s.tipo = TipoSede.CENTRAL ∧ s.activo = true) with
  | [] => none
  | c :: rest =>
    some (rest.foldl (fun best q => if q.nombre < best.nombre then q else best) c)

/-- `req_to_sal` (sal_service.py:36-109): convert a PENDING REQ into a
DRAFT SAL.  Returns an existing draft SAL derived from this REQ when there
is one; otherwise creates the SAL and immediately marks the REQ
`REQ_ATENDIDO`. -/
def reqToSal (userId : Nat) (reqId : Nat) (responsable : Option Nat)
    (ubicacion : Option Nat) (db : DB) : Except AppError (Nat × DB) :=
  match db.findProfile userId with
  | none => .error (.permissionDenied "Usuario sin perfil (UserProfile).")
  | some profile =>
    if ¬(profile.rol = Rol.ALMACEN ∨ profile.rol = Rol.JEFA) then
      .error (.permissionDenied "No tienes permisos para esta acción.")
    else
      match db.findDoc reqId with
      | none => .error (.doesNotExist "DocumentoInventario no existe")
      | some req =>
        if req.tipo ≠ TipoDocumento.REQ then
          .error (.validation "Solo un REQ puede convertirse en SAL.")
        else if req.estado = EstadoDocumento.ANULADO then
          .error (.validation "No puedes convertir un REQ anulado.")
        else if req.estado ≠ EstadoDocumento.REQ_PENDIENTE then
          .error (.validation "Solo un REQ en estado PENDIENTE puede convertirse en SAL.")
        else if db.itemsOf reqId = [] then
          .error (.validation "No puedes convertir a SAL: el REQ no tiene ítems.")
        else
          match sedeOperativa db profile with
          | none => .error (.validation "No tienes sede operativa asignada.")
          | some sedeSalida =>
            if profile.rol ≠ Rol.JEFA ∧ req.sede ≠ some sedeSalida.id then
              .error (.permissionDenied "No puedes atender REQ de otra sede.")
            else if (match ubicacion with
                     | some u =>
                       match db.findUbicacion u with
                       | some ub => decide (ub.sede ≠ sedeSalida.id)
                       | none => false
                     | none => false) = true then
              .error (.validation "La ubicación seleccionada no pertenece a la sede de salida.")
            else
              let existentes := db.documentos.filter (fun dd =>
                dd.tipo = TipoDocumento.SAL ∧ dd.estado = EstadoDocumento.BORRADOR ∧
                dd.origen = some reqId)
              match latestByFecha existentes with
              | some salExistente => .ok (salExistente.id, db)
              | none =>
                match DocumentoInventario.generarSalidaDesdeReq req
                    (some (responsable.getD userId)) sedeSalida.id ubicacion db with
                | .error e => .error e
                | .ok (salId, db1) =>
                  .ok (salId,
                    db1.updateDoc { req with estado := EstadoDocumento.REQ_ATENDIDO })

/-- `req_to_sal` under `transaction.atomic`. -/
def reqToSalAttempt (userId reqId : Nat) (responsable ubicacion : Option Nat)
    (db : DB) : DB :=
  match reqToSal userId reqId responsable ubicacion db with
  | .ok (_, db2) => db2
  | .error _ => db

/-- `_normalizar_req_borrador_por_rol` (req_service.py:44-104): force a
draft REQ into the kind/destination/supplier shape its owner's role
dictates; saves only when something changed. -/
def normalizarReqBorradorPorRol (db : DB) (doc : DocumentoInventario)
    (profile : UserProfile) : DocumentoInventario × DB :=
  if doc.tipo ≠ TipoDocumento.REQ ∨ doc.estado ≠ EstadoDocumento.REQ_BORRADOR then
    (doc, db)
  else
    let paso : DocumentoInventario × Bool :=
      match profile.rol with
      | .SOLICITANTE =>
        let (d, c) :=
          if doc.tipo_requerimiento ≠ TipoRequerimiento.LOCAL then
            ({ doc with tipo_requerimiento := TipoRequerimiento.LOCAL }, true)
          else (doc, false)
        let (d, c) :=
          if d.sede_destino.isSome then ({ d with sede_destino := none }, true)
          else (d, c)
        if d.proveedor.isSome then ({ d with proveedor := none }, true) else (d, c)
      | .ALMACEN =>
        if (match doc.sede.bind db.findSede with
            | some sede => decide (sede.tipo = TipoSede.CENTRAL)
            | none => false) = true then
          let (d, c) :=
            if doc.tipo_requerimiento ≠ TipoRequerimiento.PROVEEDOR then
              ({ doc with tipo_requerimiento := TipoRequerimiento.PROVEEDOR }, true)
            else (doc, false)
          if d.sede_destino.isSome then ({ d with sede_destino := none }, true)
          else (d, c)
        else
          let (d, c) :=
            if doc.tipo_requerimiento ≠ TipoRequerimiento.ENTRE_SEDES then
              ({ doc with tipo_requerimiento := TipoRequerimiento.ENTRE_SEDES }, true)
            else (doc, false)
          let (d, c) :=
            match getSedeCentral db with
            | some central =>
              if d.sede_destino ≠ some central.id then
                ({ d with sede_destino := some central.id }, true)
              else (d, c)
            | none => (d, c)
          if d.proveedor.isSome then ({ d with proveedor := none }, true) else (d, c)
      | _ =>
        -- JEFA / ADMIN: `if not doc.tipo_requerimiento` — the field is a
        -- non-null CharField with a default, so it is never falsy here.
        (doc, false)
    if paso.2 then (paso.1, db.updateDoc paso.1) else (paso.1, db)

/-- `get_or_create_req_borrador` (req_service.py:107-179): the per-user,
per-sede draft-REQ "cart".  Returns the latest existing draft (normalized
by role) or creates one with role-dependent defaults. -/
def getOrCreateReqBorrador (userId : Nat) (ubicacion : Option Nat)
    (centroCosto : String) (db : DB) :
    Except AppError (DocumentoInventario × DB) :=
  match db.findProfile userId with
  | none => .error (.permissionDenied "Usuario sin perfil (UserProfile).")
  | some profile =>
    match sedeOperativa db profile with
    | none => .error (.validation "No tienes sede operativa asignada.")
    | some sede =>
      if (match ubicacion with
          | some u =>
            decide (profile.rol ≠ Rol.JEFA) &&
            (match db.findUbicacion u with
             | some ub => decide (ub.sede ≠ sede.id)
             | none => false)
          | none => false) = true then
        .error (.validation "La ubicación no pertenece a tu sede operativa.")
      else
        let drafts := db.documentos.filter (fun d =>
          d.tipo = TipoDocumento.REQ ∧ d.estado = EstadoDocumento.REQ_BORRADOR ∧
          d.responsable = userId ∧ d.sede = some sede.id)
        match latestByFecha drafts with
        | some doc0 =>
          let (doc1, db1) :=
            match ubicacion with
            | some u =>
              if doc0.ubicacion ≠ some u then
                let d := { doc0 with ubicacion := some u }
                (d, db.updateDoc d)
              else (doc0, db)
            | none => (doc0, db)
          .ok (normalizarReqBorradorPorRol db1 doc1 profile)
        | none =>
          let defaults : TipoRequerimiento × Option Nat :=
            if profile.rol = Rol.ALMACEN then
              if sede.tipo = TipoSede.CENTRAL then
                (TipoRequerimiento.PROVEEDOR, none)
              else
                (TipoRequerimiento.ENTRE_SEDES, (getSedeCentral db).map (fun s => s.id))
            else (TipoRequerimiento.LOCAL, none)
          let doc : DocumentoInventario :=
            { id := db.nextDocId, tipo := TipoDocumento.REQ, numero := none,
              fecha := db.now, sede := some sede.id, ubicacion := ubicacion,
              sede_origen := none, sede_destino := defaults.2, proveedor := none,
              centro_costo := centroCosto, responsable := userId,
              entregado_por := none, estado := EstadoDocumento.REQ_BORRADOR,
              observaciones := "", origen := none, recibido := false,
              recibido_por := none, recibido_en := none,
              tipo_requerimiento := defaults.1 }
          .ok (doc, { db with documentos := db.documentos ++ [doc],
                              nextDocId := db.nextDocId + 1 })

namespace DocumentoItem

/-- `DocumentoItem.clean` (models.py:782-786): the liquidation
sub-quantities may not exceed the delivered quantity. -/
def clean (it : DocumentoItem) : Except AppError Unit :=
  if it.cantidad_devuelta + it.cantidad_merma + it.cantidad_usada > it.cantidad then
    .error (.validation "Devuelto + Merma + Usado no puede superar la cantidad entregada.")
  else
    .ok ()

/-- A validated write of a document line — `full_clean()` (which runs
`clean`, models.py:782-786) followed by `save` (models.py:788-791) on the
unique (documento, producto) row. -/
def storeValidated (db : DB) (it : DocumentoItem) : Except AppError DB :=
  match clean it with
  | .error e => .error e
  | .ok _ =>
    let saved := DocumentoInventario.itemSaveDefaults db it
    let items2 := upsertBy
      (fun j => decide (j.documento = it.documento ∧ j.producto = it.producto))
      (fun _ => saved) saved db.items
    .ok { db with items := items2 }

/-- `storeValidated` under `transaction.atomic`. -/
def storeValidatedAttempt (db : DB) (it : DocumentoItem) : DB :=
  match storeValidated db it with
  | .ok db2 => db2
  | .error _ => db

end DocumentoItem

/-! ### The ledger-replay invariant (spec §8, first bullet) -/

/-- The applied movement records of a (producto, sede) pair, in
application order. -/
def DB.movsFor (db : DB) (p s : Nat) : List MovimientoInventario :=
  db.movimientos.filter (fun m => m.producto = p ∧ m.sede = s)

/-- Fold the kind-signed quantities of a record sequence starting from 0. -/
def replayDesdeCero (l : List MovimientoInventario) : Int :=
  l.foldl (fun q m => q + kindSignedDelta m) 0

/-- The ledger invariant: for every (producto, sede) pair, replaying its
kardex from 0 reproduces the current stock quantity. -/
def ledgerOk (db : DB) : Prop :=
  ∀ p s, replayDesdeCero (db.movsFor p s) = db.stockQty p s

/-! ### Helper lemmas -/

/-- An empty database and two concrete movements used by the witnesses. -/
def dbVacia : DB :=
  { sedes := [], ubicaciones := [], productos := [], stocks := [],
    movimientos := [], documentos := [], items := [], correlativos := [],
    profiles := [], nextDocId := 1, now := 0 }

def movIn3 : MovimientoInventario :=
  { producto := 1, sede := 1, ubicacion := none, tipo := TipoMovimiento.IN,
    qty := 3, costo_unitario := some 2, costo_total := none,
    referencia := "", nota := "" }

def movOut5 : MovimientoInventario :=
  { producto := 1, sede := 1, ubicacion := none, tipo := TipoMovimiento.OUT,
    qty := 5, costo_unitario := some 2, costo_total := none,
    referencia := "", nota := "" }

/-- Decidable equality of outcomes, for the concrete witnesses. -/
instance {ε α : Type} [DecidableEq ε] [DecidableEq α] :
    DecidableEq (Except ε α) := fun x y =>
  match x, y with
  | .ok a, .ok b =>
    if h : a = b then isTrue (by rw [h])
    else isFalse (by intro hc; cases hc; exact h rfl)
  | .error a, .error b =>
    if h : a = b then isTrue (by rw [h])
    else isFalse (by intro hc; cases hc; exact h rfl)
  | .ok _, .error _ => isFalse (by intro hc; cases hc)
  | .error _, .ok _ => isFalse (by intro hc; cases hc)

def stockRow (p s : Nat) (q : Int) (ts : Nat) : Stock :=
  { producto := p, sede := s, cantidad := q, actualizado_en_operacion := ts }

/-- Same empty database but with 5 units already on stock at (1,1). -/
def dbStock5 : DB :=
  { dbVacia with stocks := [stockRow 1 1 5 0] }

/-- What `MovimientoInventario.save` persists for `movIn3`: unit cost 2,
total cost 6 — and nothing else; there is no balance field. -/
def savedIn3 : MovimientoInventario :=
  { movIn3 with costo_unitario := some 2, costo_total := some 6 }

/-- The database after `createAndApply movIn3 dbVacia`. -/
def dbDespuesIn3 : DB :=
  { dbVacia with
    movimientos := [savedIn3],
    stocks := [stockRow 1 1 3 0] }

/-- The "last-issued integer" of a type's sequence counter (0 when the row
does not exist yet, matching `get_or_create`'s default). -/
def corrValor (db : DB) (t : TipoDocumento) : Nat :=
  match db.correlativos.find? (fun c => c.tipo = t) with
  | some c => c.ultimo_numero
  | none => 0

def docBase : DocumentoInventario :=
  { id := 10, tipo := TipoDocumento.REQ, numero := none, fecha := 0,
    sede := some 1, ubicacion := none, sede_origen := none,
    sede_destino := none, proveedor := none, centro_costo := "",
    responsable := 7, entregado_por := none,
    estado := EstadoDocumento.REQ_BORRADOR, observaciones := "",
    origen := none, recibido := false, recibido_por := none,
    recibido_en := none, tipo_requerimiento := TipoRequerimiento.LOCAL }

def docReqNumerado : DocumentoInventario :=
  { docBase with numero := some "REQ-0000000007" }

def dbCorr41 : DB :=
  { dbVacia with correlativos := [{ tipo := TipoDocumento.REQ, ultimo_numero := 41 }] }

def itemMalo : DocumentoItem :=
  { documento := 10, producto := 1, cantidad := 5, costo_unitario := some 2,
    observacion := "", cantidad_devuelta := 3, cantidad_merma := 2,
    cantidad_usada := 1 }

def itemBueno : DocumentoItem :=
  { documento := 10, producto := 1, cantidad := 5, costo_unitario := some 2,
    observacion := "", cantidad_devuelta := 2, cantidad_merma := 2,
    cantidad_usada := 1 }

def dbConItemBueno : DB := { dbVacia with items := [itemBueno] }

def sedeSec2 : Sede :=
  { id := 2, nombre := "Huancayo", tipo := TipoSede.SECUNDARIO, activo := true }

def docSalNC : DocumentoInventario :=
  { docBase with
    id := 20
    tipo := TipoDocumento.SAL
    estado := EstadoDocumento.BORRADOR
    sede := some 2
    sede_destino := some 3 }

def dbC5 : DB :=
  { dbVacia with sedes := [sedeSec2], documentos := [docSalNC] }

/-- The ING documents whose `origen` is the given SAL — the cascade's
idempotency key (origin-document, target-type). -/
def ingsDerivados (db : DB) (docId : Nat) : List DocumentoInventario :=
  db.documentos.filter
    (fun dd => dd.tipo = TipoDocumento.ING ∧ dd.origen = some docId)

/-- A document line as the mirror property sees it: product, quantity,
unit cost. -/
def lineaResumen (it : DocumentoItem) : Nat × Nat × Option Int :=
  (it.producto, it.cantidad, it.costo_unitario)

def sedeCentral1 : Sede :=
  { id := 1, nombre := "Jauja", tipo := TipoSede.CENTRAL, activo := true }

def docSalC : DocumentoInventario :=
  { docBase with
    id := 20
    tipo := TipoDocumento.SAL
    estado := EstadoDocumento.BORRADOR
    sede := some 1
    sede_destino := some 3 }

def itemSalC : DocumentoItem :=
  { documento := 20, producto := 1, cantidad := 2, costo_unitario := some 7,
    observacion := "", cantidad_devuelta := 0, cantidad_merma := 0,
    cantidad_usada := 0 }

def dbC4 : DB :=
  { dbVacia with
    sedes := [sedeCentral1]
    documentos := [docSalC]
    items := [itemSalC]
    stocks := [stockRow 1 1 5 0]
    nextDocId := 21 }

def movSalC : MovimientoInventario :=
  { producto := 1, sede := 1, ubicacion := none, tipo := TipoMovimiento.OUT,
    qty := 2, costo_unitario := some 7, costo_total := some 14,
    referencia := "SAL-0000000001", nota := "" }

def ingC4 : DocumentoInventario :=
  { id := 21, tipo := TipoDocumento.ING, numero := none, fecha := 0,
    sede := some 3, ubicacion := none, sede_origen := some 1,
    sede_destino := some 3, proveedor := none, centro_costo := "",
    responsable := 7, entregado_por := none,
    estado := EstadoDocumento.BORRADOR,
    observaciones := "ING generado por transferencia desde SAL-0000000001",
    origen := some 20, recibido := false, recibido_por := none,
    recibido_en := none, tipo_requerimiento := TipoRequerimiento.LOCAL }

def itemIngC4 : DocumentoItem :=
  { documento := 21, producto := 1, cantidad := 2, costo_unitario := some 7,
    observacion := "Recepción de SAL-0000000001", cantidad_devuelta := 0,
    cantidad_merma := 0, cantidad_usada := 0 }

/-- The database after confirming the CENTRAL cross-sede SAL `docSalC`. -/
def dbC4after : DB :=
  { dbC4 with
    stocks := [stockRow 1 1 3 0]
    movimientos := [movSalC]
    documentos := [{ docSalC with
        numero := some "SAL-0000000001"
        estado := EstadoDocumento.CONFIRMADO }, ingC4]
    items := [itemSalC, itemIngC4]
    correlativos := [{ tipo := TipoDocumento.SAL, ultimo_numero := 1 }]
    nextDocId := 22 }

def docReqViol : DocumentoInventario :=
  { docBase with
    id := 30
    proveedor := some 9 }

def itemReqViol : DocumentoItem :=
  { documento := 30, producto := 1, cantidad := 1, costo_unitario := some 2,
    observacion := "", cantidad_devuelta := 0, cantidad_merma := 0,
    cantidad_usada := 0 }

def dbC7 : DB :=
  { dbVacia with
    sedes := [sedeCentral1]
    documentos := [docReqViol]
    items := [itemReqViol] }

def profAlm5 : UserProfile :=
  { user := 5, rol := Rol.ALMACEN, sede_principal := some 2,
    sede_activa := none, sedes_permitidas := [], creado_en := 0 }

def docReqPend : DocumentoInventario :=
  { docBase with
    id := 10
    estado := EstadoDocumento.REQ_PENDIENTE
    sede := some 2 }

def itemReqPend : DocumentoItem :=
  { documento := 10, producto := 1, cantidad := 4, costo_unitario := some 2,
    observacion := "", cantidad_devuelta := 0, cantidad_merma := 0,
    cantidad_usada := 0 }

def dbC6 : DB :=
  { dbVacia with
    sedes := [sedeSec2]
    profiles := [profAlm5]
    documentos := [docReqPend]
    items := [itemReqPend]
    nextDocId := 11 }

/-- The database after `req_to_sal` on the PENDING REQ of `dbC6`. -/
def dbC6after : DB := reqToSalAttempt 5 10 none none dbC6

/-- An ALMACEN user at sede 2 with no draft REQ yet. -/
def dbC10 : DB :=
  { dbVacia with
    sedes := [sedeSec2]
    profiles := [profAlm5]
    nextDocId := 1 }

/-- The (document, database) pair returned by the first
`get_or_create_req_borrador` call on `dbC10`. -/
def c10pair : DocumentoInventario × DB :=
  match getOrCreateReqBorrador 5 none "" dbC10 with
  | .ok p => p
  | .error _ => (docBase, dbC10)

theorem find?_map_guard {α : Type} (f f2 : α → Bool) (g : α → α)
    (hdisj : ∀ a, f a = true → f2 a = false)
    (hkeep : ∀ a, f2 (g a) = f2 a) :
    ∀ l : List α, (l.map (fun a => if f a then g a else a)).find? f2 = l.find? f2 := by
  intro l
  induction l with
  | nil => simp
  | cons a t ih =>
    by_cases ha2 : f2 a = true
    · have hfa : ¬(f a = true) := by
        intro hc; rw [hdisj a hc] at ha2; exact Bool.false_ne_true ha2
      simp only [List.map_cons, if_neg hfa]
      rw [List.find?_cons_of_pos _ ha2, List.find?_cons_of_pos _ ha2]
    · have ha2f : f2 a = false := by revert ha2; cases f2 a <;> simp
      by_cases hfa : f a = true
      · simp only [List.map_cons, if_pos hfa]
        rw [List.find?_cons_of_neg _ (by simp [hkeep a, ha2f]),
          List.find?_cons_of_neg _ (by simp [ha2f])]
        exact ih
      · simp only [List.map_cons, if_neg hfa]
        rw [List.find?_cons_of_neg _ (by simp [ha2f]),
          List.find?_cons_of_neg _ (by simp [ha2f])]
        exact ih

theorem find?_append_skip {α : Type} (f2 : α → Bool) (mk : α) (hmk : f2 mk = false) :
    ∀ l : List α, (l ++ [mk]).find? f2 = l.find? f2 := by
  intro l
  induction l with
  | nil => simp [List.find?, hmk]
  | cons a t ih =>
    by_cases ha : f2 a = true
    · rw [List.cons_append, List.find?_cons_of_pos _ ha, List.find?_cons_of_pos _ ha]
    · have haf : f2 a = false := by revert ha; cases f2 a <;> simp
      rw [List.cons_append, List.find?_cons_of_neg _ (by simp [haf]),
        List.find?_cons_of_neg _ (by simp [haf])]
      exact ih

theorem find?_upsertBy {α : Type} (f : α → Bool) (g : α → α) (mk v : α)
    (hg : ∀ a, f a = true → g a = v) (hmk : mk = v) (hv : f v = true) :
    ∀ l : List α, (upsertBy f g mk l).find? f = some v := by
  have hmap : ∀ l : List α, l.any f = true →
      (l.map (fun a => if f a then g a else a)).find? f = some v := by
    intro l
    induction l with
    | nil => simp
    | cons a t ih =>
      intro hany
      by_cases ha : f a = true
      · simp only [List.map_cons, if_pos ha, hg a ha]
        rw [List.find?_cons_of_pos _ hv]
      · have haf : f a = false := by revert ha; cases f a <;> simp
        have hat : t.any f = true := by
          simp only [List.any_cons, haf, Bool.false_or] at hany; exact hany
        simp only [List.map_cons, if_neg ha]
        rw [List.find?_cons_of_neg _ (by simp [haf])]
        exact ih hat
  have hnone : ∀ l : List α, l.any f = false → l.find? f = none := by
    intro l
    induction l with
    | nil => simp
    | cons a t ih =>
      intro hany
      simp only [List.any_cons, Bool.or_eq_false_iff] at hany
      rw [List.find?_cons_of_neg _ (by simp [hany.1])]
      exact ih hany.2
  intro l
  by_cases hany : l.any f = true
  · simp only [upsertBy, hany, if_pos rfl]
    exact hmap l hany
  · have hanyf : l.any f = false := by revert hany; cases l.any f <;> simp
    simp only [upsertBy, hanyf, if_neg Bool.false_ne_true]
    have : l.find? f = none := hnone l hanyf
    calc (l ++ [mk]).find? f = ((l.find? f).or ([mk].find? f)) := by
          rw [List.find?_append]
      _ = some v := by rw [this, hmk]; simp [List.find?, hv]

theorem find?_upsertBy_other {α : Type} (f f2 : α → Bool) (g : α → α) (mk : α)
    (hdisj : ∀ a, f a = true → f2 a = false)
    (hkeep : ∀ a, f2 (g a) = f2 a)
    (hmk : f2 mk = false) :
    ∀ l : List α, (upsertBy f g mk l).find? f2 = l.find? f2 := by
  intro l
  by_cases hany : l.any f = true
  · simp only [upsertBy, hany, if_pos rfl]
    exact find?_map_guard f f2 g hdisj hkeep l
  · have hanyf : l.any f = false := by revert hany; cases l.any f <;> simp
    simp only [upsertBy, hanyf, if_neg Bool.false_ne_true]
    exact find?_append_skip f2 mk hmk l

theorem DB.stockQty_setStock_self (db : DB) (p s : Nat) (q : Int) :
    (db.setStock p s q).stockQty p s = q := by
  have hfind : ((db.setStock p s q).stocks).find?
      (fun st => decide (st.producto = p ∧ st.sede = s)) =
      some { producto := p, sede := s, cantidad := q,
             actualizado_en_operacion := db.now } := by
    have heq : (db.setStock p s q).stocks = upsertBy
        (fun st => decide (st.producto = p ∧ st.sede = s))
        (fun st => { st with cantidad := q, actualizado_en_operacion := db.now })
        { producto := p, sede := s, cantidad := q,
          actualizado_en_operacion := db.now } db.stocks := rfl
    rw [heq]
    exact find?_upsertBy _ _ _ _
      (fun a ha => by
        have h2 : a.producto = p ∧ a.sede = s := of_decide_eq_true ha
        cases a
        simp_all)
      rfl (by simp) db.stocks
  unfold DB.stockQty
  rw [hfind]

theorem DB.stockQty_setStock_other (db : DB) (p s p2 s2 : Nat) (q : Int)
    (h : ¬(p2 = p ∧ s2 = s)) :
    (db.setStock p s q).stockQty p2 s2 = db.stockQty p2 s2 := by
  have hfind : ((db.setStock p s q).stocks).find?
      (fun st => decide (st.producto = p2 ∧ st.sede = s2)) =
      (db.stocks).find? (fun st => decide (st.producto = p2 ∧ st.sede = s2)) := by
    have heq : (db.setStock p s q).stocks = upsertBy
        (fun st => decide (st.producto = p ∧ st.sede = s))
        (fun st => { st with cantidad := q, actualizado_en_operacion := db.now })
        { producto := p, sede := s, cantidad := q,
          actualizado_en_operacion := db.now } db.stocks := rfl
    rw [heq]
    exact find?_upsertBy_other
      (fun st => decide (st.producto = p ∧ st.sede = s))
      (fun st => decide (st.producto = p2 ∧ st.sede = s2))
      (fun st => { st with cantidad := q, actualizado_en_operacion := db.now })
      { producto := p, sede := s, cantidad := q,
        actualizado_en_operacion := db.now }
      (fun a ha => by
        have h2 : a.producto = p ∧ a.sede = s := of_decide_eq_true ha
        apply decide_eq_false
        intro hc
        exact h ⟨by rw [← hc.1, h2.1], by rw [← hc.2, h2.2]⟩)
      (fun a => rfl)
      (by apply decide_eq_false; intro hc; exact h ⟨hc.1.symm, hc.2.symm⟩)
      db.stocks
  unfold DB.stockQty
  rw [hfind]

/-- The kind-signed quantity added by `aplicar`, per branch of the source's
match on `tipo`, equals `kindSignedDelta`. -/
theorem aplicar_eq_delta (m : MovimientoInventario) (db : DB) :
    MovimientoInventario.aplicar m db =
      (if db.stockQty m.producto m.sede + kindSignedDelta m < 0 then
        .error (.validation "No hay stock suficiente para esta operación.")
      else
        .ok (db.setStock m.producto m.sede
          (db.stockQty m.producto m.sede + kindSignedDelta m))) := by
  unfold MovimientoInventario.aplicar kindSignedDelta
  cases m.tipo <;> simp [sub_eq_add_neg]

/-- C1: for every movement and database state, `aplicar` computes the new
quantity per kind (IN: +qty; OUT: -qty; ADJ: +signed qty), rejects with the
insufficient-stock error exactly when that quantity would be negative
leaving the database unchanged, and on success the stored quantity equals
old + kind-signed delta and is non-negative. -/
theorem aplicar_stock_spec (m : MovimientoInventario) (db : DB) :
    (db.stockQty m.producto m.sede + kindSignedDelta m < 0 →
      MovimientoInventario.aplicar m db =
        .error (.validation "No hay stock suficiente para esta operación.") ∧
      MovimientoInventario.aplicarAttempt m db = db) ∧
    (0 ≤ db.stockQty m.producto m.sede + kindSignedDelta m →
      ∃ db2, MovimientoInventario.aplicar m db = .ok db2 ∧
        db2.stockQty m.producto m.sede =
          db.stockQty m.producto m.sede + kindSignedDelta m ∧
        0 ≤ db2.stockQty m.producto m.sede) := by
  constructor
  · intro hneg
    have herr : MovimientoInventario.aplicar m db =
        .error (.validation "No hay stock suficiente para esta operación.") := by
      rw [aplicar_eq_delta, if_pos hneg]
    refine ⟨herr, ?_⟩
    unfold MovimientoInventario.aplicarAttempt
    rw [herr]
  · intro hpos
    have hok : MovimientoInventario.aplicar m db =
        .ok (db.setStock m.producto m.sede
          (db.stockQty m.producto m.sede + kindSignedDelta m)) := by
      rw [aplicar_eq_delta, if_neg (not_lt.mpr hpos)]
    refine ⟨_, hok, ?_, ?_⟩
    · exact DB.stockQty_setStock_self db m.producto m.sede _
    · rw [DB.stockQty_setStock_self db m.producto m.sede _]
      exact hpos

theorem DB.setStock_movimientos (db : DB) (p s : Nat) (q : Int) :
    (db.setStock p s q).movimientos = db.movimientos := rfl

theorem DB.setStock_documentos (db : DB) (p s : Nat) (q : Int) :
    (db.setStock p s q).documentos = db.documentos := rfl

theorem DB.setStock_items (db : DB) (p s : Nat) (q : Int) :
    (db.setStock p s q).items = db.items := rfl

theorem DB.setStock_correlativos (db : DB) (p s : Nat) (q : Int) :
    (db.setStock p s q).correlativos = db.correlativos := rfl

theorem DB.setStock_sedes (db : DB) (p s : Nat) (q : Int) :
    (db.setStock p s q).sedes = db.sedes := rfl

theorem DB.setStock_productos (db : DB) (p s : Nat) (q : Int) :
    (db.setStock p s q).productos = db.productos := rfl

theorem DB.setStock_profiles (db : DB) (p s : Nat) (q : Int) :
    (db.setStock p s q).profiles = db.profiles := rfl

theorem DB.setStock_nextDocId (db : DB) (p s : Nat) (q : Int) :
    (db.setStock p s q).nextDocId = db.nextDocId := rfl

theorem DB.setStock_now (db : DB) (p s : Nat) (q : Int) :
    (db.setStock p s q).now = db.now := rfl

theorem DB.setStock_ubicaciones (db : DB) (p s : Nat) (q : Int) :
    (db.setStock p s q).ubicaciones = db.ubicaciones := rfl

/-- Witness for C1 at concrete inputs: an IN of 3 into empty stock succeeds
with quantity 3; an OUT of 5 from empty stock is rejected and leaves the
database unchanged. -/
theorem aplicar_stock_spec_witness :
    (∃ db2, MovimientoInventario.aplicar movIn3 dbVacia = .ok db2 ∧
      db2.stockQty movIn3.producto movIn3.sede =
        dbVacia.stockQty movIn3.producto movIn3.sede + kindSignedDelta movIn3 ∧
      0 ≤ db2.stockQty movIn3.producto movIn3.sede) ∧
    (MovimientoInventario.aplicar movOut5 dbVacia =
      .error (.validation "No hay stock suficiente para esta operación.") ∧
     MovimientoInventario.aplicarAttempt movOut5 dbVacia = dbVacia) :=
  ⟨(aplicar_stock_spec movIn3 dbVacia).2 (by decide),
   (aplicar_stock_spec movOut5 dbVacia).1 (by decide)⟩

/-! ### C2: is the movement record stamped with a resulting balance? -/

/-- C2 counterexample: applying the same IN-3 movement to stock 0 and to
stock 5 persists the byte-identical kardex row while the resulting
balances differ (3 vs 8) — so the persisted record cannot contain a
resulting-balance snapshot; `MovimientoInventario` has no such field. -/
theorem registro_sin_saldo_counterexample :
    (Except.map (fun d => (d.movimientos, d.stockQty 1 1))
      (createAndApply movIn3 dbVacia) = .ok ([savedIn3], 3)) ∧
    (Except.map (fun d => (d.movimientos, d.stockQty 1 1))
      (createAndApply movIn3 dbStock5) = .ok ([savedIn3], 8)) ∧
    (3 : Int) ≠ 8 := by decide

/-- C2 amended: the atomic create-and-apply step persists the movement
record exactly as `save` built it — a function of the record and the
product catalog alone, independent of the stock level — and `aplicar`
never writes back to it; only the Stock row changes. -/
theorem registro_persiste_sin_saldo (m : MovimientoInventario) (db db2 : DB)
    (h : createAndApply m db = .ok db2) :
    db2.movimientos = db.movimientos ++ [MovimientoInventario.saveDefaults db m] ∧
    db2.documentos = db.documentos ∧ db2.items = db.items := by
  unfold createAndApply at h
  rw [aplicar_eq_delta] at h
  set db1 : DB :=
    { db with movimientos :=
        db.movimientos ++ [MovimientoInventario.saveDefaults db m] } with hdb1
  by_cases hneg : db1.stockQty (MovimientoInventario.saveDefaults db m).producto
      (MovimientoInventario.saveDefaults db m).sede +
      kindSignedDelta (MovimientoInventario.saveDefaults db m) < 0
  · rw [if_pos hneg] at h
    exact absurd h (by simp)
  · rw [if_neg hneg] at h
    have hdb2 : db2 = db1.setStock (MovimientoInventario.saveDefaults db m).producto
        (MovimientoInventario.saveDefaults db m).sede
        (db1.stockQty (MovimientoInventario.saveDefaults db m).producto
          (MovimientoInventario.saveDefaults db m).sede +
          kindSignedDelta (MovimientoInventario.saveDefaults db m)) := by
      cases h
      rfl
    rw [hdb2, DB.setStock_movimientos, DB.setStock_documentos, DB.setStock_items]
    exact ⟨rfl, rfl, rfl⟩

/-- Witness for the amended C2 at a concrete input. -/
theorem registro_persiste_sin_saldo_witness :
    dbDespuesIn3.movimientos =
      dbVacia.movimientos ++ [MovimientoInventario.saveDefaults dbVacia movIn3] :=
  (registro_persiste_sin_saldo movIn3 dbVacia dbDespuesIn3 (by decide)).1

/-! ### C8: document numbering -/

/-- C8: `asignar_numero_si_falta` is a no-op (document and database
unchanged, counter untouched) when a number exists; otherwise the type's
counter is incremented by exactly one and the document receives
`TYPE-` followed by the new value zero-padded to ten digits. -/
theorem asignar_numero_spec (doc : DocumentoInventario) (db : DB) :
    (∀ n, doc.numero = some n →
      DocumentoInventario.asignarNumeroSiFalta doc db = (doc, db)) ∧
    (doc.numero = none →
      (DocumentoInventario.asignarNumeroSiFalta doc db).1.numero =
        some (doc.tipo.code ++ "-" ++
          padZeros 10 (toString (corrValor db doc.tipo + 1))) ∧
      (DocumentoInventario.asignarNumeroSiFalta doc db).2.correlativos.find?
        (fun c => decide (c.tipo = doc.tipo)) =
        some { tipo := doc.tipo, ultimo_numero := corrValor db doc.tipo + 1 }) := by
  constructor
  · intro n hn
    unfold DocumentoInventario.asignarNumeroSiFalta
    rw [hn]
  · intro hn
    unfold DocumentoInventario.asignarNumeroSiFalta
    rw [hn]
    refine ⟨rfl, ?_⟩
    show (upsertBy (fun c => decide (c.tipo = doc.tipo))
        (fun c => { c with ultimo_numero := corrValor db doc.tipo + 1 })
        { tipo := doc.tipo, ultimo_numero := corrValor db doc.tipo + 1 }
        db.correlativos).find? (fun c => decide (c.tipo = doc.tipo)) = _
    exact find?_upsertBy _ _ _ _
      (fun c hc => by
        have h2 : c.tipo = doc.tipo := of_decide_eq_true hc
        cases c
        simp_all)
      rfl (by simp) db.correlativos

/-- Witness for C8: a numbered document is untouched, and an unnumbered
REQ over a counter at 41 gets number REQ-0000000042 with the counter at 42. -/
theorem asignar_numero_spec_witness :
    (DocumentoInventario.asignarNumeroSiFalta docReqNumerado dbVacia =
      (docReqNumerado, dbVacia)) ∧
    ((DocumentoInventario.asignarNumeroSiFalta docBase dbCorr41).1.numero =
      some (docBase.tipo.code ++ "-" ++
        padZeros 10 (toString (corrValor dbCorr41 docBase.tipo + 1))) ∧
     (DocumentoInventario.asignarNumeroSiFalta docBase dbCorr41).2.correlativos.find?
       (fun c => decide (c.tipo = docBase.tipo)) =
       some { tipo := docBase.tipo,
              ultimo_numero := corrValor dbCorr41 docBase.tipo + 1 }) :=
  ⟨(asignar_numero_spec docReqNumerado dbVacia).1 "REQ-0000000007" rfl,
   (asignar_numero_spec docBase dbCorr41).2 rfl⟩

/-! ### C9: liquidation sub-quantities -/

theorem itemSaveDefaults_cantidades (db : DB) (it : DocumentoItem) :
    (DocumentoInventario.itemSaveDefaults db it).cantidad = it.cantidad ∧
    (DocumentoInventario.itemSaveDefaults db it).cantidad_devuelta = it.cantidad_devuelta ∧
    (DocumentoInventario.itemSaveDefaults db it).cantidad_merma = it.cantidad_merma ∧
    (DocumentoInventario.itemSaveDefaults db it).cantidad_usada = it.cantidad_usada := by
  unfold DocumentoInventario.itemSaveDefaults
  cases it.costo_unitario <;> exact ⟨rfl, rfl, rfl, rfl⟩

/-- C9: a validated write of a document line rejects sub-quantities whose
sum exceeds the delivered quantity (database unchanged), and when all
stored lines satisfy `returned + wasted + used ≤ quantity`, any successful
validated write preserves that invariant for every stored line. -/
theorem item_liquidacion_spec (db : DB) (it : DocumentoItem) :
    (it.cantidad_devuelta + it.cantidad_merma + it.cantidad_usada > it.cantidad →
      DocumentoItem.storeValidated db it =
        .error (.validation
          "Devuelto + Merma + Usado no puede superar la cantidad entregada.") ∧
      DocumentoItem.storeValidatedAttempt db it = db) ∧
    (∀ db2, DocumentoItem.storeValidated db it = .ok db2 →
      (∀ j ∈ db.items,
        j.cantidad_devuelta + j.cantidad_merma + j.cantidad_usada ≤ j.cantidad) →
      ∀ j ∈ db2.items,
        j.cantidad_devuelta + j.cantidad_merma + j.cantidad_usada ≤ j.cantidad) := by
  constructor
  · intro hbad
    have herr : DocumentoItem.storeValidated db it =
        .error (.validation
          "Devuelto + Merma + Usado no puede superar la cantidad entregada.") := by
      unfold DocumentoItem.storeValidated DocumentoItem.clean
      rw [if_pos hbad]
    refine ⟨herr, ?_⟩
    unfold DocumentoItem.storeValidatedAttempt
    rw [herr]
  · intro db2 hok hall j hj
    have hgood : ¬(it.cantidad_devuelta + it.cantidad_merma + it.cantidad_usada >
        it.cantidad) := by
      intro hbad
      unfold DocumentoItem.storeValidated DocumentoItem.clean at hok
      rw [if_pos hbad] at hok
      exact absurd hok (by simp)
    have hit : it.cantidad_devuelta + it.cantidad_merma + it.cantidad_usada ≤
        it.cantidad := le_of_not_lt hgood
    have hsaved : (DocumentoInventario.itemSaveDefaults db it).cantidad_devuelta +
        (DocumentoInventario.itemSaveDefaults db it).cantidad_merma +
        (DocumentoInventario.itemSaveDefaults db it).cantidad_usada ≤
        (DocumentoInventario.itemSaveDefaults db it).cantidad := by
      obtain ⟨h1, h2, h3, h4⟩ := itemSaveDefaults_cantidades db it
      rw [h1, h2, h3, h4]
      exact hit
    have hdb2 : db2.items = upsertBy
        (fun j => decide (j.documento = it.documento ∧ j.producto = it.producto))
        (fun _ => DocumentoInventario.itemSaveDefaults db it)
        (DocumentoInventario.itemSaveDefaults db it) db.items := by
      unfold DocumentoItem.storeValidated DocumentoItem.clean at hok
      rw [if_neg hgood] at hok
      cases hok
      rfl
    rw [hdb2] at hj
    unfold upsertBy at hj
    by_cases hany : db.items.any
        (fun j => decide (j.documento = it.documento ∧ j.producto = it.producto)) = true
    · rw [if_pos hany] at hj
      obtain ⟨x, hx, hxj⟩ := List.mem_map.mp hj
      by_cases hfx : (decide (x.documento = it.documento ∧
          x.producto = it.producto)) = true
      · rw [if_pos hfx] at hxj
        rw [← hxj]
        exact hsaved
      · rw [if_neg hfx] at hxj
        rw [← hxj]
        exact hall x hx
    · rw [if_neg hany] at hj
      rcases List.mem_append.mp hj with hx | hx
      · exact hall j hx
      · have : j = DocumentoInventario.itemSaveDefaults db it := by
          simpa using hx
        rw [this]
        exact hsaved

/-- Witness for C9: 3+2+1 > 5 is rejected leaving the database unchanged;
a successful store of 2+2+1 ≤ 5 keeps the stored line legal. -/
theorem item_liquidacion_spec_witness :
    (DocumentoItem.storeValidated dbVacia itemMalo =
      .error (.validation
        "Devuelto + Merma + Usado no puede superar la cantidad entregada.") ∧
     DocumentoItem.storeValidatedAttempt dbVacia itemMalo = dbVacia) ∧
    itemBueno.cantidad_devuelta + itemBueno.cantidad_merma +
      itemBueno.cantidad_usada ≤ itemBueno.cantidad :=
  ⟨(item_liquidacion_spec dbVacia itemMalo).1 (by decide),
   (item_liquidacion_spec dbVacia itemBueno).2 dbConItemBueno (by decide)
     (by intro j hj; simp [dbVacia] at hj) itemBueno
     (by simp [dbConItemBueno])⟩

/-! ### C3: the ledger replay invariant -/

theorem replay_shift (l : List MovimientoInventario) :
    ∀ x : Int, l.foldl (fun q m => q + kindSignedDelta m) x =
      x + replayDesdeCero l := by
  induction l with
  | nil => intro x; simp [replayDesdeCero]
  | cons m t ih =>
    intro x
    unfold replayDesdeCero
    simp only [List.foldl_cons]
    rw [ih (x + kindSignedDelta m), ih (0 + kindSignedDelta m)]
    ring

theorem replay_append_one (l : List MovimientoInventario) (m : MovimientoInventario) :
    replayDesdeCero (l ++ [m]) = replayDesdeCero l + kindSignedDelta m := by
  unfold replayDesdeCero
  rw [List.foldl_append]
  simp only [List.foldl_cons, List.foldl_nil]

theorem saveDefaults_producto (db : DB) (m : MovimientoInventario) :
    (MovimientoInventario.saveDefaults db m).producto = m.producto := rfl

theorem saveDefaults_sede (db : DB) (m : MovimientoInventario) :
    (MovimientoInventario.saveDefaults db m).sede = m.sede := rfl

theorem saveDefaults_delta (db : DB) (m : MovimientoInventario) :
    kindSignedDelta (MovimientoInventario.saveDefaults db m) = kindSignedDelta m := by
  cases m with
  | mk p s u tp q cu ct r n => cases tp <;> rfl

theorem ledgerOk_congr (db db2 : DB) (hm : db2.movimientos = db.movimientos)
    (hs : db2.stocks = db.stocks) (h : ledgerOk db) : ledgerOk db2 := by
  intro p s
  have h2 := h p s
  unfold DB.movsFor DB.stockQty at h2 ⊢
  rw [hm, hs]
  exact h2

theorem ledgerOk_createAndApply (m : MovimientoInventario) (db db2 : DB)
    (h : createAndApply m db = .ok db2) (hdb : ledgerOk db) : ledgerOk db2 := by
  unfold createAndApply at h
  rw [aplicar_eq_delta] at h
  set saved := MovimientoInventario.saveDefaults db m with hsv
  set db1 : DB := { db with movimientos := db.movimientos ++ [saved] } with hdb1
  by_cases hneg : db1.stockQty saved.producto saved.sede + kindSignedDelta saved < 0
  · rw [if_pos hneg] at h
    exact absurd h (by simp)
  · rw [if_neg hneg] at h
    have hdb2 : db2 = db1.setStock saved.producto saved.sede
        (db1.stockQty saved.producto saved.sede + kindSignedDelta saved) := by
      cases h; rfl
    have hq1 : ∀ p s, db1.stockQty p s = db.stockQty p s := fun p s => rfl
    intro p s
    by_cases hkey : saved.producto = p ∧ saved.sede = s
    · have hmv : db2.movsFor p s = db.movsFor p s ++ [saved] := by
        rw [hdb2]
        unfold DB.movsFor
        rw [DB.setStock_movimientos]
        show (db.movimientos ++ [saved]).filter _ = _
        rw [List.filter_append]
        congr 1
        simp [List.filter, hkey.1, hkey.2]
      have hq2 : db2.stockQty p s = db.stockQty p s + kindSignedDelta saved := by
        rw [← hkey.1, ← hkey.2]
        rw [hdb2, DB.stockQty_setStock_self]
        rw [hq1]
      rw [hmv, replay_append_one, hq2, hdb p s]
    · have hmv : db2.movsFor p s = db.movsFor p s := by
        rw [hdb2]
        unfold DB.movsFor
        rw [DB.setStock_movimientos]
        show (db.movimientos ++ [saved]).filter _ = _
        rw [List.filter_append]
        have hemp : [saved].filter
            (fun mv => decide (mv.producto = p ∧ mv.sede = s)) = [] := by
          simp only [List.filter]
          split
          · next hc => exact absurd (of_decide_eq_true hc) hkey
          · rfl
        rw [hemp, List.append_nil]
      have hq2 : db2.stockQty p s = db.stockQty p s := by
        rw [hdb2, DB.stockQty_setStock_other]
        · exact hq1 p s
        · intro hc
          exact hkey ⟨hc.1.symm, hc.2.symm⟩
      rw [hmv, hq2]
      exact hdb p s

theorem createAndApply_frame (m : MovimientoInventario) (db db2 : DB)
    (h : createAndApply m db = .ok db2) :
    db2.documentos = db.documentos ∧ db2.items = db.items ∧
    db2.correlativos = db.correlativos ∧ db2.sedes = db.sedes ∧
    db2.nextDocId = db.nextDocId ∧ db2.now = db.now ∧
    db2.profiles = db.profiles ∧ db2.productos = db.productos ∧
    db2.ubicaciones = db.ubicaciones := by
  unfold createAndApply at h
  rw [aplicar_eq_delta] at h
  set saved := MovimientoInventario.saveDefaults db m with hsv
  set db1 : DB := { db with movimientos := db.movimientos ++ [saved] } with hdb1
  by_cases hneg : db1.stockQty saved.producto saved.sede + kindSignedDelta saved < 0
  · rw [if_pos hneg] at h
    exact absurd h (by simp)
  · rw [if_neg hneg] at h
    have hdb2 : db2 = db1.setStock saved.producto saved.sede
        (db1.stockQty saved.producto saved.sede + kindSignedDelta saved) := by
      cases h; rfl
    rw [hdb2]
    exact ⟨rfl, rfl, rfl, rfl, rfl, rfl, rfl, rfl, rfl⟩

theorem aplicarItemsLoop_ledgerOk (t : TipoDocumento) (sd : Nat) (ub : Option Nat)
    (num : String) :
    ∀ (its : List DocumentoItem) (db db2 : DB),
      DocumentoInventario.aplicarItemsLoop t sd ub num its db = .ok db2 →
      ledgerOk db → ledgerOk db2 := by
  intro its
  induction its with
  | nil =>
    intro db db2 h hdb
    unfold DocumentoInventario.aplicarItemsLoop at h
    cases h
    exact hdb
  | cons it rest ih =>
    intro db db2 h hdb
    unfold DocumentoInventario.aplicarItemsLoop at h
    split at h
    · exact absurd h (by simp)
    · dsimp only [] at h
      split at h
      · exact absurd h (by simp)
      · next dbm heq =>
        exact ih _ _ h (ledgerOk_createAndApply _ db _ heq hdb)

theorem aplicarItemsLoop_frame (t : TipoDocumento) (sd : Nat) (ub : Option Nat)
    (num : String) :
    ∀ (its : List DocumentoItem) (db db2 : DB),
      DocumentoInventario.aplicarItemsLoop t sd ub num its db = .ok db2 →
      db2.documentos = db.documentos ∧ db2.items = db.items ∧
      db2.correlativos = db.correlativos ∧ db2.sedes = db.sedes ∧
      db2.nextDocId = db.nextDocId ∧ db2.now = db.now ∧
      db2.profiles = db.profiles ∧ db2.productos = db.productos ∧
      db2.ubicaciones = db.ubicaciones := by
  intro its
  induction its with
  | nil =>
    intro db db2 h
    unfold DocumentoInventario.aplicarItemsLoop at h
    cases h
    exact ⟨rfl, rfl, rfl, rfl, rfl, rfl, rfl, rfl, rfl⟩
  | cons it rest ih =>
    intro db db2 h
    unfold DocumentoInventario.aplicarItemsLoop at h
    split at h
    · exact absurd h (by simp)
    · dsimp only [] at h
      split at h
      · exact absurd h (by simp)
      · next dbm heq =>
        obtain ⟨a1, a2, a3, a4, a5, a6, a7, a8, a9⟩ := createAndApply_frame _ db dbm heq
        obtain ⟨b1, b2, b3, b4, b5, b6, b7, b8, b9⟩ := ih dbm db2 h
        exact ⟨b1.trans a1, b2.trans a2, b3.trans a3, b4.trans a4,
          b5.trans a5, b6.trans a6, b7.trans a7, b8.trans a8, b9.trans a9⟩

theorem asignar_db_frame (doc : DocumentoInventario) (db : DB) :
    (DocumentoInventario.asignarNumeroSiFalta doc db).2.stocks = db.stocks ∧
    (DocumentoInventario.asignarNumeroSiFalta doc db).2.movimientos = db.movimientos ∧
    (DocumentoInventario.asignarNumeroSiFalta doc db).2.items = db.items ∧
    (DocumentoInventario.asignarNumeroSiFalta doc db).2.sedes = db.sedes ∧
    (DocumentoInventario.asignarNumeroSiFalta doc db).2.nextDocId = db.nextDocId ∧
    (DocumentoInventario.asignarNumeroSiFalta doc db).2.now = db.now ∧
    (DocumentoInventario.asignarNumeroSiFalta doc db).2.profiles = db.profiles ∧
    (DocumentoInventario.asignarNumeroSiFalta doc db).2.productos = db.productos ∧
    (DocumentoInventario.asignarNumeroSiFalta doc db).2.ubicaciones = db.ubicaciones := by
  unfold DocumentoInventario.asignarNumeroSiFalta
  rcases doc.numero with _ | n <;>
    exact ⟨rfl, rfl, rfl, rfl, rfl, rfl, rfl, rfl, rfl⟩

theorem asignar_doc_fields (doc : DocumentoInventario) (db : DB) :
    (DocumentoInventario.asignarNumeroSiFalta doc db).1.id = doc.id ∧
    (DocumentoInventario.asignarNumeroSiFalta doc db).1.tipo = doc.tipo ∧
    (DocumentoInventario.asignarNumeroSiFalta doc db).1.sede = doc.sede ∧
    (DocumentoInventario.asignarNumeroSiFalta doc db).1.ubicacion = doc.ubicacion ∧
    (DocumentoInventario.asignarNumeroSiFalta doc db).1.sede_destino = doc.sede_destino ∧
    (DocumentoInventario.asignarNumeroSiFalta doc db).1.origen = doc.origen ∧
    (DocumentoInventario.asignarNumeroSiFalta doc db).1.estado = doc.estado ∧
    (DocumentoInventario.asignarNumeroSiFalta doc db).1.responsable = doc.responsable ∧
    (DocumentoInventario.asignarNumeroSiFalta doc db).1.centro_costo = doc.centro_costo := by
  unfold DocumentoInventario.asignarNumeroSiFalta
  rcases doc.numero with _ | n <;>
    exact ⟨rfl, rfl, rfl, rfl, rfl, rfl, rfl, rfl, rfl⟩

theorem updateDoc_frame (db : DB) (d : DocumentoInventario) :
    (db.updateDoc d).stocks = db.stocks ∧
    (db.updateDoc d).movimientos = db.movimientos ∧
    (db.updateDoc d).items = db.items ∧
    (db.updateDoc d).sedes = db.sedes ∧
    (db.updateDoc d).nextDocId = db.nextDocId ∧
    (db.updateDoc d).now = db.now ∧
    (db.updateDoc d).profiles = db.profiles ∧
    (db.updateDoc d).productos = db.productos ∧
    (db.updateDoc d).ubicaciones = db.ubicaciones ∧
    (db.updateDoc d).correlativos = db.correlativos :=
  ⟨rfl, rfl, rfl, rfl, rfl, rfl, rfl, rfl, rfl, rfl⟩

theorem reqAtendidoCascade_frame (doc2 : DocumentoInventario) (db : DB) :
    (DocumentoInventario.reqAtendidoCascade doc2 db).stocks = db.stocks ∧
    (DocumentoInventario.reqAtendidoCascade doc2 db).movimientos = db.movimientos ∧
    (DocumentoInventario.reqAtendidoCascade doc2 db).items = db.items ∧
    (DocumentoInventario.reqAtendidoCascade doc2 db).sedes = db.sedes ∧
    (DocumentoInventario.reqAtendidoCascade doc2 db).nextDocId = db.nextDocId ∧
    (DocumentoInventario.reqAtendidoCascade doc2 db).now = db.now ∧
    (DocumentoInventario.reqAtendidoCascade doc2 db).profiles = db.profiles ∧
    (DocumentoInventario.reqAtendidoCascade doc2 db).productos = db.productos ∧
    (DocumentoInventario.reqAtendidoCascade doc2 db).ubicaciones = db.ubicaciones ∧
    (DocumentoInventario.reqAtendidoCascade doc2 db).correlativos = db.correlativos := by
  unfold DocumentoInventario.reqAtendidoCascade
  split
  · split
    · split
      · split
        · exact ⟨rfl, rfl, rfl, rfl, rfl, rfl, rfl, rfl, rfl, rfl⟩
        · exact ⟨rfl, rfl, rfl, rfl, rfl, rfl, rfl, rfl, rfl, rfl⟩
      · exact ⟨rfl, rfl, rfl, rfl, rfl, rfl, rfl, rfl, rfl, rfl⟩
    · exact ⟨rfl, rfl, rfl, rfl, rfl, rfl, rfl, rfl, rfl, rfl⟩
  · exact ⟨rfl, rfl, rfl, rfl, rfl, rfl, rfl, rfl, rfl, rfl⟩

theorem ingRecibidoCascade_frame (doc2 : DocumentoInventario) (db : DB) :
    (DocumentoInventario.ingRecibidoCascade doc2 db).stocks = db.stocks ∧
    (DocumentoInventario.ingRecibidoCascade doc2 db).movimientos = db.movimientos ∧
    (DocumentoInventario.ingRecibidoCascade doc2 db).items = db.items ∧
    (DocumentoInventario.ingRecibidoCascade doc2 db).sedes = db.sedes ∧
    (DocumentoInventario.ingRecibidoCascade doc2 db).nextDocId = db.nextDocId ∧
    (DocumentoInventario.ingRecibidoCascade doc2 db).now = db.now ∧
    (DocumentoInventario.ingRecibidoCascade doc2 db).profiles = db.profiles ∧
    (DocumentoInventario.ingRecibidoCascade doc2 db).productos = db.productos ∧
    (DocumentoInventario.ingRecibidoCascade doc2 db).ubicaciones = db.ubicaciones ∧
    (DocumentoInventario.ingRecibidoCascade doc2 db).correlativos = db.correlativos := by
  unfold DocumentoInventario.ingRecibidoCascade
  split
  · split
    · split
      · split
        · exact ⟨rfl, rfl, rfl, rfl, rfl, rfl, rfl, rfl, rfl, rfl⟩
        · exact ⟨rfl, rfl, rfl, rfl, rfl, rfl, rfl, rfl, rfl, rfl⟩
      · exact ⟨rfl, rfl, rfl, rfl, rfl, rfl, rfl, rfl, rfl, rfl⟩
    · exact ⟨rfl, rfl, rfl, rfl, rfl, rfl, rfl, rfl, rfl, rfl⟩
  · exact ⟨rfl, rfl, rfl, rfl, rfl, rfl, rfl, rfl, rfl, rfl⟩

theorem confirmarCascades_stocks_movs (docId : Nat) (doc2 : DocumentoInventario)
    (items : List DocumentoItem) (numero : String) (dbL db2 : DB)
    (h : DocumentoInventario.confirmarCascades docId doc2 items numero dbL = .ok db2) :
    db2.stocks = dbL.stocks ∧ db2.movimientos = dbL.movimientos := by
  have h4s : (DocumentoInventario.reqAtendidoCascade doc2
      (dbL.updateDoc doc2)).stocks = dbL.stocks :=
    (reqAtendidoCascade_frame doc2 (dbL.updateDoc doc2)).1
  have h4m : (DocumentoInventario.reqAtendidoCascade doc2
      (dbL.updateDoc doc2)).movimientos = dbL.movimientos :=
    (reqAtendidoCascade_frame doc2 (dbL.updateDoc doc2)).2.1
  unfold DocumentoInventario.confirmarCascades at h
  dsimp only [] at h
  split at h
  · split at h
    · split at h
      · exact absurd h (by simp)
      · split at h
        · exact absurd h (by simp)
        · split at h
          · cases h
            exact ⟨((ingRecibidoCascade_frame _ _).1).trans h4s,
              ((ingRecibidoCascade_frame _ _).2.1).trans h4m⟩
          · cases h
            exact ⟨((ingRecibidoCascade_frame _ _).1).trans h4s,
              ((ingRecibidoCascade_frame _ _).2.1).trans h4m⟩
    · exact absurd h (by simp)
  · cases h
    exact ⟨((ingRecibidoCascade_frame _ _).1).trans h4s,
      ((ingRecibidoCascade_frame _ _).2.1).trans h4m⟩

theorem ledgerOk_confirmarBody (docId : Nat) (ep : Option Nat) (db db2 : DB)
    (h : DocumentoInventario.confirmarBody docId ep db = .ok db2)
    (hdb : ledgerOk db) : ledgerOk db2 := by
  unfold DocumentoInventario.confirmarBody at h
  split at h
  · exact absurd h (by simp)
  · next doc hfd =>
    split at h
    · exact absurd h (by simp)
    · next hreq =>
      split at h
      · exact absurd h (by simp)
      · next hestado =>
        try dsimp only [] at h
        split at h
        · exact absurd h (by simp)
        · next hitems =>
          try dsimp only [] at h
          split at h
          · exact absurd h (by simp)
          · next sedeId hsedeEq =>
            try dsimp only [] at h
            split at h
            · exact absurd h (by simp)
            · next dbL heqLoop =>
              have hfr := asignar_db_frame doc db
              have hok1 : ledgerOk (DocumentoInventario.asignarNumeroSiFalta doc db).2 :=
                ledgerOk_congr db _ hfr.2.1 hfr.1 hdb
              have hokL : ledgerOk dbL :=
                aplicarItemsLoop_ledgerOk _ _ _ _ _ _ dbL heqLoop hok1
              obtain ⟨hs2, hm2⟩ := confirmarCascades_stocks_movs _ _ _ _ _ _ h
              exact ledgerOk_congr dbL db2 hm2 hs2 hokL

/-- C3: for every (producto, sede) pair, folding the kind-signed
quantities of its applied kardex records, in application order and
starting from 0, reproduces the current stock quantity exactly, and this
invariant is preserved both by the atomic create-and-apply movement step
and by the whole document-confirm operation (cascades included). -/
theorem kardex_replay_invariant (db : DB) (hdb : ledgerOk db) :
    (∀ m, ledgerOk (createAndApplyAttempt m db)) ∧
    (∀ docId ep, ledgerOk (DocumentoInventario.confirmarAttempt docId ep db)) := by
  constructor
  · intro m
    unfold createAndApplyAttempt
    cases hca : createAndApply m db with
    | ok dbx => exact ledgerOk_createAndApply m db dbx hca hdb
    | error e => exact hdb
  · intro docId ep
    unfold DocumentoInventario.confirmarAttempt
    cases hcb : DocumentoInventario.confirmarBody docId ep db with
    | ok dbx => exact ledgerOk_confirmarBody docId ep db dbx hcb hdb
    | error e => exact hdb

/-- Witness for C3: the invariant holds for the empty ledger and is kept
by a concrete create-and-apply. -/
theorem kardex_replay_invariant_witness :
    ledgerOk (createAndApplyAttempt movIn3 dbVacia) := by
  have h0 : ledgerOk dbVacia := by
    intro p s
    simp [DB.movsFor, replayDesdeCero, DB.stockQty, dbVacia]
  exact (kardex_replay_invariant dbVacia h0).1 movIn3

/-! ### C5: cross-warehouse dispatch from a non-CENTRAL sede -/

theorem confirmarCascades_error_noncentral (docId : Nat)
    (doc2 : DocumentoInventario) (items : List DocumentoItem) (numero : String)
    (dbL : DB) (sede : Sede) (s d : Nat)
    (htipo : doc2.tipo = TipoDocumento.SAL)
    (hsede : doc2.sede = some s)
    (hdest : doc2.sede_destino = some d)
    (hne : d ≠ s)
    (hlook : dbL.findSede s = some sede)
    (hncentral : sede.tipo ≠ TipoSede.CENTRAL) :
    ∃ e, DocumentoInventario.confirmarCascades docId doc2 items numero dbL =
      .error e := by
  unfold DocumentoInventario.confirmarCascades
  dsimp only []
  rw [if_pos (by
    refine ⟨htipo, ?_, ?_, ?_⟩
    · rw [hsede]; rfl
    · rw [hdest]; rfl
    · rw [hsede, hdest]
      intro hc
      injection hc with hc2
      exact hne hc2)]
  rw [hsede, hdest]
  dsimp only []
  have hfs : (DocumentoInventario.reqAtendidoCascade doc2
      (dbL.updateDoc doc2)).findSede s = some sede := by
    unfold DB.findSede
    rw [(reqAtendidoCascade_frame doc2 (dbL.updateDoc doc2)).2.2.2.1]
    exact hlook
  rw [hfs]
  dsimp only []
  rw [if_pos hncentral]
  exact ⟨_, rfl⟩

/-- C5: confirming a SAL in DRAFT whose destination sede is set and
different from its own sede fails with an error whenever the own sede is
not CENTRAL, and the attempt leaves the database exactly as it was: no
stock change, no movement, no state/number change, no cascade ING. -/
theorem despacho_no_central_falla (docId : Nat) (ep : Option Nat) (db : DB)
    (doc : DocumentoInventario) (sede : Sede) (s d : Nat)
    (hfd : db.findDoc docId = some doc)
    (htipo : doc.tipo = TipoDocumento.SAL)
    (hestado : doc.estado = EstadoDocumento.BORRADOR)
    (hsede : doc.sede = some s)
    (hdest : doc.sede_destino = some d)
    (hne : d ≠ s)
    (hlook : db.findSede s = some sede)
    (hncentral : sede.tipo ≠ TipoSede.CENTRAL) :
    (∃ e, DocumentoInventario.confirmarBody docId ep db = .error e) ∧
    DocumentoInventario.confirmarAttempt docId ep db = db := by
  have hflds := asignar_doc_fields doc db
  have hbody : ∃ e, DocumentoInventario.confirmarBody docId ep db = .error e := by
    unfold DocumentoInventario.confirmarBody
    rw [hfd]
    dsimp only []
    rw [if_neg (by simp [htipo])]
    rw [if_neg (by simp [hestado])]
    by_cases hitems : db.itemsOf docId = []
    · rw [if_pos hitems]
      exact ⟨_, rfl⟩
    · rw [if_neg hitems]
      have hsede1 : (DocumentoInventario.asignarNumeroSiFalta doc db).1.sede =
          some s := hflds.2.2.1.trans hsede
      rw [hsede1]
      dsimp only []
      cases hloop : DocumentoInventario.aplicarItemsLoop
          (DocumentoInventario.asignarNumeroSiFalta doc db).1.tipo s
          (DocumentoInventario.asignarNumeroSiFalta doc db).1.ubicacion
          ((DocumentoInventario.asignarNumeroSiFalta doc db).1.numero.getD "")
          (db.itemsOf docId)
          (DocumentoInventario.asignarNumeroSiFalta doc db).2 with
      | error e =>
        exact ⟨e, rfl⟩
      | ok dbL =>
        have hlookL : dbL.findSede s = some sede := by
          unfold DB.findSede
          rw [(aplicarItemsLoop_frame _ _ _ _ _ _ _ hloop).2.2.2.1,
            (asignar_db_frame doc db).2.2.2.1]
          exact hlook
        exact confirmarCascades_error_noncentral docId _ _ _ dbL sede s d
          (hflds.2.1.trans htipo) rfl (hflds.2.2.2.2.1.trans hdest) hne
          hlookL hncentral
  refine ⟨hbody, ?_⟩
  obtain ⟨e, he⟩ := hbody
  unfold DocumentoInventario.confirmarAttempt
  rw [he]

/-- Witness for C5 at a concrete non-CENTRAL cross-sede SAL. -/
theorem despacho_no_central_falla_witness :
    (∃ e, DocumentoInventario.confirmarBody 20 none dbC5 = .error e) ∧
    DocumentoInventario.confirmarAttempt 20 none dbC5 = dbC5 :=
  despacho_no_central_falla 20 none dbC5 docSalNC sedeSec2 2 3
    (by decide) rfl rfl rfl rfl (by decide) (by decide) (by decide)

/-! ### C4: inter-sede transfer cascade -/

theorem filter_map_replace {α : Type} (f : α → Bool) (idOf : α → Nat) (i : Nat)
    (r : α) (hr : f r = false) :
    ∀ l : List α, (∀ x ∈ l, idOf x = i → f x = false) →
      (l.map (fun x => if idOf x = i then r else x)).filter f = l.filter f := by
  intro l
  induction l with
  | nil => intro _; rfl
  | cons a t ih =>
    intro hold
    have ht : ∀ x ∈ t, idOf x = i → f x = false :=
      fun x hx h2 => hold x (List.mem_cons_of_mem a hx) h2
    simp only [List.map_cons]
    by_cases hid : idOf a = i
    · have hfa : f a = false := hold a (List.mem_cons_self a t) hid
      rw [if_pos hid, List.filter_cons, List.filter_cons, hr, hfa]
      simp only [Bool.false_eq_true, if_false]
      exact ih ht
    · rw [if_neg hid, List.filter_cons, List.filter_cons]
      cases hfa : f a
      · simp only [Bool.false_eq_true, if_false]
        exact ih ht
      · simp only [if_true]
        rw [ih ht]

theorem map_id_replace {α : Type} (idOf : α → Nat) (i : Nat) (r : α)
    (hri : idOf r = i) :
    ∀ l : List α,
      (l.map (fun x => if idOf x = i then r else x)).map idOf = l.map idOf := by
  intro l
  induction l with
  | nil => rfl
  | cons a t ih =>
    simp only [List.map_cons]
    by_cases hid : idOf a = i
    · rw [if_pos hid, ih]
      simp [hri, hid]
    · rw [if_neg hid, ih]

theorem mem_map_replace {α : Type} (idOf : α → Nat) (i : Nat) (r : α)
    (l : List α) (x : α)
    (hx : x ∈ l.map (fun y => if idOf y = i then r else y)) :
    x = r ∨ x ∈ l := by
  obtain ⟨y, hy, hxy⟩ := List.mem_map.mp hx
  by_cases h : idOf y = i
  · rw [if_pos h] at hxy
    exact Or.inl hxy.symm
  · rw [if_neg h] at hxy
    exact Or.inr (hxy ▸ hy)

theorem ingsDerivados_congr (db db2 : DB) (docId : Nat)
    (h : db2.documentos = db.documentos) :
    ingsDerivados db2 docId = ingsDerivados db docId := by
  unfold ingsDerivados
  rw [h]

theorem ingsDerivados_updateDoc (db : DB) (dnew : DocumentoInventario) (docId : Nat)
    (hnew : ¬(dnew.tipo = TipoDocumento.ING ∧ dnew.origen = some docId))
    (hold : ∀ x ∈ db.documentos, x.id = dnew.id →
      ¬(x.tipo = TipoDocumento.ING ∧ x.origen = some docId)) :
    ingsDerivados (db.updateDoc dnew) docId = ingsDerivados db docId := by
  unfold ingsDerivados DB.updateDoc
  exact filter_map_replace _ (fun x => x.id) dnew.id dnew (decide_eq_false hnew)
    db.documentos (fun x hx h2 => decide_eq_false (hold x hx h2))

theorem ids_updateDoc (db : DB) (dnew : DocumentoInventario) :
    (db.updateDoc dnew).documentos.map (fun x => x.id) =
      db.documentos.map (fun x => x.id) := by
  unfold DB.updateDoc
  exact map_id_replace (fun x => x.id) dnew.id dnew rfl db.documentos

theorem ingsDerivados_reqAtendido (doc2 : DocumentoInventario) (db : DB) (docId : Nat)
    (huniq : (db.documentos.map (fun x => x.id)).Nodup) :
    ingsDerivados (DocumentoInventario.reqAtendidoCascade doc2 db) docId =
      ingsDerivados db docId := by
  unfold DocumentoInventario.reqAtendidoCascade
  split
  · split
    · next reqId horig =>
      split
      · next req hfindreq =>
        split
        · next hcondReq =>
          apply ingsDerivados_updateDoc
          · intro hc
            have : req.tipo = TipoDocumento.ING := hc.1
            rw [hcondReq.1] at this
            exact absurd this (by decide)
          · intro x hx hid
            have hreqmem : req ∈ db.documentos := List.mem_of_find?_eq_some hfindreq
            have hxeq : x = req :=
              List.inj_on_of_nodup_map huniq hx hreqmem hid
            intro hc
            rw [hxeq] at hc
            have : req.tipo = TipoDocumento.ING := hc.1
            rw [hcondReq.1] at this
            exact absurd this (by decide)
        · rfl
      · rfl
    · rfl
  · rfl

theorem ids_reqAtendido (doc2 : DocumentoInventario) (db : DB) :
    (DocumentoInventario.reqAtendidoCascade doc2 db).documentos.map (fun x => x.id) =
      db.documentos.map (fun x => x.id) := by
  unfold DocumentoInventario.reqAtendidoCascade
  split
  · split
    · split
      · split
        · exact ids_updateDoc _ _
        · rfl
      · rfl
    · rfl
  · rfl

theorem ingRecibido_id (doc2 : DocumentoInventario) (db : DB)
    (h : doc2.tipo ≠ TipoDocumento.ING) :
    DocumentoInventario.ingRecibidoCascade doc2 db = db := by
  unfold DocumentoInventario.ingRecibidoCascade
  rw [if_neg h]

theorem itemSaveDefaults_documento (db : DB) (j : DocumentoItem) :
    (DocumentoInventario.itemSaveDefaults db j).documento = j.documento := by
  unfold DocumentoInventario.itemSaveDefaults
  cases j.costo_unitario <;> rfl

theorem ingsDerivados_asignar (doc : DocumentoInventario) (db : DB) (docId : Nat)
    (hnew : ¬(doc.tipo = TipoDocumento.ING ∧ doc.origen = some docId))
    (hold : ∀ x ∈ db.documentos, x.id = doc.id →
      ¬(x.tipo = TipoDocumento.ING ∧ x.origen = some docId)) :
    ingsDerivados (DocumentoInventario.asignarNumeroSiFalta doc db).2 docId =
      ingsDerivados db docId := by
  unfold DocumentoInventario.asignarNumeroSiFalta
  rcases doc.numero with _ | n
  · dsimp only []
    refine Eq.trans (ingsDerivados_updateDoc _ _ docId ?h1 ?h2)
      (ingsDerivados_congr db _ docId rfl)
    case h1 => exact hnew
    case h2 => exact hold
  · rfl

theorem ids_asignar (doc : DocumentoInventario) (db : DB) :
    (DocumentoInventario.asignarNumeroSiFalta doc db).2.documentos.map
      (fun x => x.id) = db.documentos.map (fun x => x.id) := by
  unfold DocumentoInventario.asignarNumeroSiFalta
  rcases doc.numero with _ | n
  · dsimp only []
    exact ids_updateDoc _ _
  · rfl

theorem mem_asignar_docs (doc : DocumentoInventario) (db : DB)
    (x : DocumentoInventario)
    (hx : x ∈ (DocumentoInventario.asignarNumeroSiFalta doc db).2.documentos) :
    x = (DocumentoInventario.asignarNumeroSiFalta doc db).1 ∨
      x ∈ db.documentos := by
  revert hx
  unfold DocumentoInventario.asignarNumeroSiFalta
  rcases doc.numero with _ | n
  · dsimp only []
    intro hx
    unfold DB.updateDoc at hx
    exact mem_map_replace (fun y => y.id) _ _ db.documentos x hx
  · intro hx
    exact Or.inr hx

theorem confirmarCascades_transfer_spec (docId : Nat) (doc2 : DocumentoInventario)
    (items : List DocumentoItem) (numero : String) (dbL db2 : DB)
    (sede : Sede) (s d : Nat)
    (htipo2 : doc2.tipo = TipoDocumento.SAL)
    (hsede2 : doc2.sede = some s)
    (hdest2 : doc2.sede_destino = some d)
    (hne : d ≠ s)
    (hlookL : dbL.findSede s = some sede)
    (hcentral : sede.tipo = TipoSede.CENTRAL)
    (huniqL : (dbL.documentos.map (fun x => x.id)).Nodup)
    (holdL : ∀ x ∈ dbL.documentos, x.id = doc2.id →
      ¬(x.tipo = TipoDocumento.ING ∧ x.origen = some docId))
    (hfreshL : ∀ it ∈ dbL.items, it.documento ≠ dbL.nextDocId)
    (hcost : ∀ it ∈ items, it.costo_unitario.isSome)
    (hok : DocumentoInventario.confirmarCascades docId doc2 items numero dbL =
      .ok db2) :
    (ingsDerivados dbL docId = [] →
      ∃ ing, ingsDerivados db2 docId = [ing] ∧
        ing.estado = EstadoDocumento.BORRADOR ∧ ing.sede = some d ∧
        ing.origen = some docId ∧
        (db2.itemsOf ing.id).map lineaResumen = items.map lineaResumen) ∧
    (ingsDerivados dbL docId ≠ [] →
      ingsDerivados db2 docId = ingsDerivados dbL docId) := by
  have hnotIngTipo : doc2.tipo ≠ TipoDocumento.ING := by
    rw [htipo2]; decide
  unfold DocumentoInventario.confirmarCascades at hok
  try dsimp only [] at hok
  rw [if_pos (And.intro htipo2 (And.intro (by rw [hsede2]; rfl)
    (And.intro (by rw [hdest2]; rfl)
      (by rw [hsede2, hdest2]
          intro hc
          injection hc with hc2
          exact hne hc2))))] at hok
  rw [hsede2, hdest2] at hok
  try dsimp only [] at hok
  set db4 := DocumentoInventario.reqAtendidoCascade doc2 (dbL.updateDoc doc2)
    with hdb4
  have hD4 : ingsDerivados db4 docId = ingsDerivados dbL docId := by
    have h1 : ingsDerivados (dbL.updateDoc doc2) docId =
        ingsDerivados dbL docId :=
      ingsDerivados_updateDoc dbL doc2 docId (fun hc => hnotIngTipo hc.1) holdL
    have huniqU : ((dbL.updateDoc doc2).documentos.map (fun x => x.id)).Nodup := by
      rw [ids_updateDoc]; exact huniqL
    exact (ingsDerivados_reqAtendido doc2 _ docId huniqU).trans h1
  have hN4 : db4.nextDocId = dbL.nextDocId :=
    (reqAtendidoCascade_frame doc2 (dbL.updateDoc doc2)).2.2.2.2.1
  have hI4 : db4.items = dbL.items :=
    (reqAtendidoCascade_frame doc2 (dbL.updateDoc doc2)).2.2.1
  have hfs : db4.findSede s = some sede := by
    unfold DB.findSede at hlookL ⊢
    rw [show db4.sedes = dbL.sedes from
      (reqAtendidoCascade_frame doc2 (dbL.updateDoc doc2)).2.2.2.1]
    exact hlookL
  rw [hfs] at hok
  try dsimp only [] at hok
  rw [if_neg (by simp [hcentral])] at hok
  try dsimp only [] at hok
  constructor
  · intro hempty
    have hnil4 : ingsDerivados db4 docId = [] := hD4.trans hempty
    have hanyF : ¬(db4.documentos.any
        (fun dd => decide (dd.tipo = TipoDocumento.ING ∧
          dd.origen = some docId)) = true) := by
      intro hany
      obtain ⟨x, hx, hpx⟩ := List.any_eq_true.mp hany
      have : x ∈ ingsDerivados db4 docId := by
        unfold ingsDerivados
        exact List.mem_filter.mpr ⟨hx, hpx⟩
      rw [hnil4] at this
      exact absurd this (List.not_mem_nil x)
    rw [if_neg hanyF] at hok
    try dsimp only [] at hok
    rw [ingRecibido_id doc2 _ hnotIngTipo] at hok
    injection hok with hok2
    subst hok2
    refine ⟨DocumentoInventario.ingTransfer docId doc2 numero db4 s d,
      ?_, rfl, rfl, rfl, ?_⟩
    · unfold ingsDerivados
      show (db4.documentos ++ [_]).filter _ = _
      rw [List.filter_append]
      have h1 : db4.documentos.filter
          (fun dd => decide (dd.tipo = TipoDocumento.ING ∧
            dd.origen = some docId)) = [] := hnil4
      rw [h1]
      simp [DocumentoInventario.ingTransfer]
    · unfold DB.itemsOf
      show (((db4.items ++ _)).filter _).map lineaResumen = _
      rw [List.filter_append]
      have hingid : (DocumentoInventario.ingTransfer docId doc2 numero db4 s d).id =
          db4.nextDocId := rfl
      have hold4 : db4.items.filter
          (fun it => decide (it.documento =
            (DocumentoInventario.ingTransfer docId doc2 numero db4 s d).id)) = [] := by
        rw [List.filter_eq_nil_iff]
        intro it hit
        rw [hI4] at hit
        simp only [decide_eq_true_eq]
        rw [hingid, hN4]
        exact hfreshL it hit
      rw [hold4, List.nil_append]
      have hkeep : ∀ (l : List DocumentoItem),
          (∀ j ∈ l, j.documento =
            (DocumentoInventario.ingTransfer docId doc2 numero db4 s d).id) →
          l.filter (fun it => decide (it.documento =
            (DocumentoInventario.ingTransfer docId doc2 numero db4 s d).id)) = l := by
        intro l hl
        induction l with
        | nil => rfl
        | cons a t ih =>
          rw [List.filter_cons, if_pos (by
            simp only [decide_eq_true_eq]
            exact hl a (List.mem_cons_self a t))]
          rw [ih (fun j hj => hl j (List.mem_cons_of_mem a hj))]
      rw [hkeep _ (by
        intro j hj
        obtain ⟨it, hit, hj2⟩ := List.mem_map.mp hj
        rw [← hj2, itemSaveDefaults_documento])]
      rw [List.map_map]
      apply List.map_congr_left
      intro it hit
      obtain ⟨c, hc⟩ := Option.isSome_iff_exists.mp (hcost it hit)
      simp only [Function.comp]
      unfold DocumentoInventario.itemSaveDefaults
      rw [hc]
      unfold lineaResumen
      rw [hc]
  · intro hnonempty
    have hne4 : ingsDerivados db4 docId ≠ [] := by
      rw [hD4]; exact hnonempty
    have hanyT : db4.documentos.any
        (fun dd => decide (dd.tipo = TipoDocumento.ING ∧
          dd.origen = some docId)) = true := by
      rcases hx : ingsDerivados db4 docId with _ | ⟨x, t⟩
      · exact absurd hx hne4
      · have hxmem : x ∈ ingsDerivados db4 docId := by rw [hx]; exact List.mem_cons_self x t
        unfold ingsDerivados at hxmem
        obtain ⟨hx1, hx2⟩ := List.mem_filter.mp hxmem
        exact List.any_eq_true.mpr ⟨x, hx1, hx2⟩
    rw [if_pos hanyT] at hok
    rw [ingRecibido_id doc2 _ hnotIngTipo] at hok
    injection hok with hok2
    subst hok2
    exact hD4

/-- C4: confirming a DRAFT SAL whose own sede is CENTRAL and whose
destination differs creates exactly one DRAFT ING at the destination with
`origen` pointing back at the SAL and lines mirroring the SAL's lines
(product, quantity, unit cost); the creation is guarded by the
existing-ING check, so when an ING derived from this SAL already exists
none is created. -/
theorem despacho_central_crea_ing (docId : Nat) (ep : Option Nat) (db db2 : DB)
    (doc : DocumentoInventario) (sede : Sede) (s d : Nat)
    (hfd : db.findDoc docId = some doc)
    (htipo : doc.tipo = TipoDocumento.SAL)
    (hestado : doc.estado = EstadoDocumento.BORRADOR)
    (hsede : doc.sede = some s)
    (hdest : doc.sede_destino = some d)
    (hne : d ≠ s)
    (hlook : db.findSede s = some sede)
    (hcentral : sede.tipo = TipoSede.CENTRAL)
    (huniq : (db.documentos.map (fun x => x.id)).Nodup)
    (hfresh : ∀ it ∈ db.items, it.documento ≠ db.nextDocId)
    (hcost : ∀ it ∈ db.itemsOf docId, it.costo_unitario.isSome)
    (hok : DocumentoInventario.confirmarBody docId ep db = .ok db2) :
    (ingsDerivados db docId = [] →
      ∃ ing, ingsDerivados db2 docId = [ing] ∧
        ing.estado = EstadoDocumento.BORRADOR ∧ ing.sede = some d ∧
        ing.origen = some docId ∧
        (db2.itemsOf ing.id).map lineaResumen =
          (db.itemsOf docId).map lineaResumen) ∧
    (ingsDerivados db docId ≠ [] →
      ingsDerivados db2 docId = ingsDerivados db docId) := by
  have hfd2 : db.documentos.find? (fun dd => decide (dd.id = docId)) =
      some doc := hfd
  have hdocid : doc.id = docId := by
    have hp := List.find?_some hfd2
    simpa using hp
  have hdocmem : doc ∈ db.documentos := List.mem_of_find?_eq_some hfd2
  have hholddb : ∀ x ∈ db.documentos, x.id = doc.id →
      ¬(x.tipo = TipoDocumento.ING ∧ x.origen = some docId) := by
    intro x hx hid hc
    have hxd : x = doc := List.inj_on_of_nodup_map huniq hx hdocmem hid
    rw [hxd, htipo] at hc
    exact absurd hc.1 (by decide)
  have hflds := asignar_doc_fields doc db
  unfold DocumentoInventario.confirmarBody at hok
  rw [hfd] at hok
  try dsimp only [] at hok
  rw [if_neg (by simp [htipo]), if_neg (by simp [hestado])] at hok
  by_cases hitems : db.itemsOf docId = []
  · rw [if_pos hitems] at hok
    exact absurd hok (by simp)
  · rw [if_neg hitems] at hok
    have hsede1 : (DocumentoInventario.asignarNumeroSiFalta doc db).1.sede =
        some s := hflds.2.2.1.trans hsede
    try dsimp only [] at hok
    split at hok
    · exact absurd hok (by simp)
    · next sedeId heq =>
      have hsId : s = sedeId := by
        rw [hsede1] at heq
        injection heq
      subst hsId
      split at hok
      · exact absurd hok (by simp)
      · next dbL heqLoop =>
        have hLframe := aplicarItemsLoop_frame _ _ _ _ _ _ _ heqLoop
        have hAframe := asignar_db_frame doc db
        have hlookL : dbL.findSede s = some sede := by
          unfold DB.findSede at hlook ⊢
          rw [hLframe.2.2.2.1, hAframe.2.2.2.1]
          exact hlook
        have huniqL : (dbL.documentos.map (fun x => x.id)).Nodup := by
          rw [hLframe.1, ids_asignar]
          exact huniq
        have hfreshL : ∀ it ∈ dbL.items, it.documento ≠ dbL.nextDocId := by
          intro it hit
          rw [hLframe.2.1, hAframe.2.2.1] at hit
          rw [hLframe.2.2.2.2.1, hAframe.2.2.2.2.1]
          exact hfresh it hit
        have holdL : ∀ x ∈ dbL.documentos,
            x.id = (DocumentoInventario.asignarNumeroSiFalta doc db).1.id →
            ¬(x.tipo = TipoDocumento.ING ∧ x.origen = some docId) := by
          intro x hx hid
          rw [hLframe.1] at hx
          rcases mem_asignar_docs doc db x hx with hxa | hxdb
          · intro hc
            have hknd : (DocumentoInventario.asignarNumeroSiFalta doc db).1.tipo =
                TipoDocumento.ING := by rw [← hxa]; exact hc.1
            rw [hflds.2.1, htipo] at hknd
            exact absurd hknd (by decide)
          · exact hholddb x hxdb (hid.trans hflds.1)
        have hD_dbL : ingsDerivados dbL docId = ingsDerivados db docId := by
          refine Eq.trans (ingsDerivados_congr _ _ docId hLframe.1) ?_
          refine ingsDerivados_asignar doc db docId ?_ hholddb
          intro hc
          rw [htipo] at hc
          exact absurd hc.1 (by decide)
        have hspec := confirmarCascades_transfer_spec docId
          { (DocumentoInventario.asignarNumeroSiFalta doc db).1 with
            entregado_por := DocumentoInventario.entregadoPorFinal ep
              (DocumentoInventario.asignarNumeroSiFalta doc db).1.entregado_por
            estado := EstadoDocumento.CONFIRMADO }
          (db.itemsOf docId)
          ((DocumentoInventario.asignarNumeroSiFalta doc db).1.numero.getD "")
          dbL db2 sede s d
          (hflds.2.1.trans htipo) (hflds.2.2.1.trans hsede)
          (hflds.2.2.2.2.1.trans hdest) hne
          hlookL hcentral huniqL holdL hfreshL hcost hok
        constructor
        · intro hempty
          obtain ⟨ing, h1, h2, h3, h4, h5⟩ := hspec.1 (hD_dbL.trans hempty)
          exact ⟨ing, h1, h2, h3, h4, h5⟩
        · intro hne2
          have h2 := hspec.2 (by rw [hD_dbL]; exact hne2)
          rw [h2, hD_dbL]

/-- Witness for C4 at a concrete CENTRAL cross-sede SAL with one line. -/
theorem despacho_central_crea_ing_witness :
    ∃ ing, ingsDerivados dbC4after 20 = [ing] ∧
      ing.estado = EstadoDocumento.BORRADOR ∧ ing.sede = some 3 ∧
      ing.origen = some 20 ∧
      (dbC4after.itemsOf ing.id).map lineaResumen =
        (dbC4.itemsOf 20).map lineaResumen :=
  (despacho_central_crea_ing 20 none dbC4 dbC4after docSalC sedeCentral1 1 3
    (by decide) rfl rfl rfl rfl (by decide) (by decide) rfl
    (by decide) (by decide) (by decide) (by decide)).1 (by decide)

/-! ### C7: requisition-kind validation on submit -/

/-- C7: submitting a draft REQ (`enviar_req`) fails with an error and
leaves the database — and so the document's DRAFT state — unchanged
whenever the requisition-kind field constraints are violated: LOCAL
forbids supplier and destination; SUPPLIER requires a supplier, forbids a
destination and is only legal at the CENTRAL sede; INTER_SITE requires a
CENTRAL destination, forbids a supplier and is illegal at CENTRAL. -/
theorem enviar_req_valida (docId : Nat) (db : DB) (doc : DocumentoInventario)
    (sede : Sede) (s : Nat)
    (hfd : db.findDoc docId = some doc)
    (htipo : doc.tipo = TipoDocumento.REQ)
    (hestado : doc.estado = EstadoDocumento.REQ_BORRADOR)
    (hitems : db.itemsOf docId ≠ [])
    (hsede : doc.sede = some s)
    (hlook : db.findSede s = some sede)
    (hubi : doc.ubicacion = none)
    (hviol : match doc.tipo_requerimiento with
      | TipoRequerimiento.LOCAL =>
          doc.proveedor.isSome ∨ doc.sede_destino.isSome
      | TipoRequerimiento.PROVEEDOR =>
          sede.tipo ≠ TipoSede.CENTRAL ∨ doc.proveedor = none ∨
          doc.sede_destino.isSome
      | TipoRequerimiento.ENTRE_SEDES =>
          sede.tipo = TipoSede.CENTRAL ∨ doc.sede_destino = none ∨
          (∃ d2 sd, doc.sede_destino = some d2 ∧ db.findSede d2 = some sd ∧
            sd.tipo ≠ TipoSede.CENTRAL) ∨ doc.proveedor.isSome) :
    (∃ e, DocumentoInventario.enviarReqBody docId db = .error e) ∧
    DocumentoInventario.enviarReqAttempt docId db = db ∧
    (db.findDoc docId).map (fun dd => dd.estado) =
      some EstadoDocumento.REQ_BORRADOR := by
  have hbind : doc.sede.bind db.findSede = some sede := by
    rw [hsede]
    exact hlook
  have hclean : ∃ e, DocumentoInventario.clean db doc = .error e := by
    unfold DocumentoInventario.clean
    rw [if_neg (by simp [hsede]), if_neg (by simp [htipo]),
      if_neg (by rw [hubi]; simp), if_neg (by simp [htipo])]
    cases hknd : doc.tipo_requerimiento with
    | LOCAL =>
      rw [hknd] at hviol
      try dsimp only []
      by_cases hprov : doc.proveedor.isSome = true
      · rw [if_pos hprov]
        exact ⟨_, rfl⟩
      · rw [if_neg hprov]
        rcases hviol with hv | hv
        · exact absurd hv hprov
        · rw [if_pos hv]
          exact ⟨_, rfl⟩
    | PROVEEDOR =>
      rw [hknd] at hviol
      try dsimp only []
      have hcond1 : (match doc.sede.bind db.findSede with
          | some sede2 => decide (sede2.tipo ≠ TipoSede.CENTRAL)
          | none => false) = decide (sede.tipo ≠ TipoSede.CENTRAL) := by
        rw [hbind]
      rw [hcond1]
      by_cases hnc : sede.tipo = TipoSede.CENTRAL
      · rw [if_neg (by simp [hnc])]
        rcases hviol with hv | hv | hv
        · exact absurd hnc hv
        · by_cases hpn : doc.proveedor = none
          · rw [if_pos hpn]
            exact ⟨_, rfl⟩
          · exact absurd hv hpn
        · by_cases hpn : doc.proveedor = none
          · rw [if_pos hpn]
            exact ⟨_, rfl⟩
          · rw [if_neg hpn, if_pos hv]
            exact ⟨_, rfl⟩
      · rw [if_pos (by simp [hnc])]
        exact ⟨_, rfl⟩
    | ENTRE_SEDES =>
      rw [hknd] at hviol
      try dsimp only []
      have hcond1 : (match doc.sede.bind db.findSede with
          | some sede2 => decide (sede2.tipo = TipoSede.CENTRAL)
          | none => false) = decide (sede.tipo = TipoSede.CENTRAL) := by
        rw [hbind]
      rw [hcond1]
      by_cases hc1 : sede.tipo = TipoSede.CENTRAL
      · rw [if_pos (by simp [hc1])]
        exact ⟨_, rfl⟩
      · rw [if_neg (by simp [hc1])]
        cases hdst : doc.sede_destino with
        | none => exact ⟨_, rfl⟩
        | some dd =>
          try dsimp only []
          cases hfs2 : db.findSede dd with
          | none => exact ⟨_, rfl⟩
          | some sd =>
            try dsimp only []
            by_cases hsd : sd.tipo = TipoSede.CENTRAL
            · rw [if_neg (by simp [hsd])]
              rcases hviol with hv | hv | hv | hv
              · exact absurd hv hc1
              · rw [hdst] at hv
                exact absurd hv (by simp)
              · obtain ⟨d3, sd3, hv1, hv2, hv3⟩ := hv
                rw [hdst] at hv1
                injection hv1 with hv1b
                rw [← hv1b] at hv2
                rw [hfs2] at hv2
                injection hv2 with hv2b
                rw [← hv2b] at hv3
                exact absurd hsd hv3
              · rw [if_pos hv]
                exact ⟨_, rfl⟩
            · rw [if_pos (by simp [hsd])]
              exact ⟨_, rfl⟩
  obtain ⟨e, he⟩ := hclean
  have hbody : ∃ e2, DocumentoInventario.enviarReqBody docId db = .error e2 := by
    unfold DocumentoInventario.enviarReqBody
    rw [hfd]
    try dsimp only []
    rw [if_neg (by simp [htipo]), if_neg (by simp [hestado]),
      if_neg hitems, he]
    exact ⟨e, rfl⟩
  refine ⟨hbody, ?_, ?_⟩
  · obtain ⟨e2, he2⟩ := hbody
    unfold DocumentoInventario.enviarReqAttempt
    rw [he2]
  · rw [hfd]
    simp [hestado]

/-- Witness for C7: a LOCAL requisition carrying a supplier is rejected
on submit and stays in DRAFT. -/
theorem enviar_req_valida_witness :
    (∃ e, DocumentoInventario.enviarReqBody 30 dbC7 = .error e) ∧
    DocumentoInventario.enviarReqAttempt 30 dbC7 = dbC7 ∧
    (dbC7.findDoc 30).map (fun dd => dd.estado) =
      some EstadoDocumento.REQ_BORRADOR :=
  enviar_req_valida 30 dbC7 docReqViol sedeCentral1 1
    (by decide) rfl rfl (by decide) rfl (by decide) rfl (Or.inl rfl)

/-! ### C6: converting a REQ to a SAL and the PENDING state -/

/-- C6 counterexample: converting a PENDING REQ into a SAL via
`req_to_sal` does NOT leave the REQ in PENDING — the service immediately
marks it REQ_ATENDIDO when it creates the SAL (sal_service.py:104-107). -/
theorem req_to_sal_no_deja_pendiente_counterexample :
    (reqToSal 5 10 none none dbC6).map
      (fun r => (r.2.findDoc 10).map (fun dd => dd.estado)) =
      .ok (some EstadoDocumento.REQ_ATENDIDO) ∧
    EstadoDocumento.REQ_ATENDIDO ≠ EstadoDocumento.REQ_PENDIENTE := by decide

theorem find?_map_replace_keep {α : Type} (f2 : α → Bool) (idOf : α → Nat)
    (i : Nat) (r : α) (hr : f2 r = false) :
    ∀ l : List α, (∀ x ∈ l, idOf x = i → f2 x = false) →
      (l.map (fun y => if idOf y = i then r else y)).find? f2 = l.find? f2 := by
  intro l
  induction l with
  | nil => intro _; rfl
  | cons a t ih =>
    intro hall
    have ht : ∀ x ∈ t, idOf x = i → f2 x = false :=
      fun x hx h2 => hall x (List.mem_cons_of_mem a hx) h2
    simp only [List.map_cons]
    by_cases hida : idOf a = i
    · have hfa : f2 a = false := hall a (List.mem_cons_self a t) hida
      rw [if_pos hida]
      rw [List.find?_cons_of_neg _ (by simp [hr]),
        List.find?_cons_of_neg _ (by simp [hfa])]
      exact ih ht
    · rw [if_neg hida]
      cases hfa : f2 a
      · rw [List.find?_cons_of_neg _ (by simp [hfa]),
          List.find?_cons_of_neg _ (by simp [hfa])]
        exact ih ht
      · rw [List.find?_cons_of_pos _ hfa, List.find?_cons_of_pos _ hfa]

theorem findDoc_updateDoc_self (db : DB) (dnew : DocumentoInventario) (i : Nat)
    (hid : dnew.id = i) (x : DocumentoInventario)
    (hfind : db.findDoc i = some x) :
    (db.updateDoc dnew).findDoc i = some dnew := by
  have hfind2 : db.documentos.find? (fun y => decide (y.id = i)) = some x := hfind
  show (db.documentos.map (fun y => if y.id = dnew.id then dnew else y)).find?
    (fun y => decide (y.id = i)) = some dnew
  clear hfind
  revert hfind2
  induction db.documentos with
  | nil => intro h; simp [List.find?] at h
  | cons a t ih =>
    intro h
    simp only [List.map_cons]
    by_cases ha : a.id = i
    · rw [if_pos (by rw [ha, hid])]
      rw [List.find?_cons_of_pos _ (by simp [hid])]
    · by_cases ha2 : a.id = dnew.id
      · rw [hid] at ha2
        exact absurd ha2 ha
      · rw [if_neg ha2]
        rw [List.find?_cons_of_neg _ (by simp [ha])] at h
        rw [List.find?_cons_of_neg _ (by simp [ha])]
        exact ih h

/-- C6 amended: when `req_to_sal` actually creates the SAL (no draft SAL
derived from this REQ existed), it returns a DRAFT SAL whose `origen` is
the REQ and immediately marks the REQ `REQ_ATENDIDO` — the REQ does not
stay PENDING until the SAL is confirmed.  (The confirm-time transition of
models.py:661-666 still fires for a REQ that is somehow still PENDING.) -/
theorem req_to_sal_marca_atendido (userId reqId : Nat) (resp : Option Nat)
    (db db2 : DB) (salId : Nat)
    (hnoexist : db.documentos.filter (fun dd =>
      dd.tipo = TipoDocumento.SAL ∧ dd.estado = EstadoDocumento.BORRADOR ∧
      dd.origen = some reqId) = [])
    (hfresh : ∀ x ∈ db.documentos, x.id ≠ db.nextDocId)
    (hok : reqToSal userId reqId resp none db = .ok (salId, db2)) :
    (db2.findDoc reqId).map (fun dd => dd.estado) =
      some EstadoDocumento.REQ_ATENDIDO ∧
    ∃ sal, db2.findDoc salId = some sal ∧ sal.tipo = TipoDocumento.SAL ∧
      sal.estado = EstadoDocumento.BORRADOR ∧ sal.origen = some reqId := by
  unfold reqToSal at hok
  split at hok
  · exact absurd hok (by simp)
  · next profile hprof =>
    split at hok
    · exact absurd hok (by simp)
    · next hrole =>
      split at hok
      · exact absurd hok (by simp)
      · next req hfdreq =>
        split at hok
        · exact absurd hok (by simp)
        · next htipoOk =>
          split at hok
          · exact absurd hok (by simp)
          · next hanul =>
            split at hok
            · exact absurd hok (by simp)
            · next hpend =>
              split at hok
              · exact absurd hok (by simp)
              · next hitems =>
                split at hok
                · exact absurd hok (by simp)
                · next sedeSalida hsal =>
                  split at hok
                  · exact absurd hok (by simp)
                  · next hrs =>
                    split at hok
                    · exact absurd hok (by simp)
                    · next hub =>
                      rw [hnoexist] at hok
                      try dsimp only [] at hok
                      rw [show latestByFecha [] = none from rfl] at hok
                      try dsimp only [] at hok
                      unfold DocumentoInventario.generarSalidaDesdeReq at hok
                      rw [if_neg htipoOk, if_neg hpend,
                        if_neg (by simp)] at hok
                      try dsimp only [] at hok
                      injection hok with hok2
                      rw [Prod.mk.injEq] at hok2
                      obtain ⟨hsalid, hdb2⟩ := hok2
                      have hfdreq2 : db.documentos.find?
                          (fun dd => decide (dd.id = reqId)) = some req := hfdreq
                      have hreqmem : req ∈ db.documentos :=
                        List.mem_of_find?_eq_some hfdreq2
                      have hreqid : req.id = reqId := by
                        have hp := List.find?_some hfdreq2
                        simpa using hp
                      have hreqfresh : req.id ≠ db.nextDocId := hfresh req hreqmem
                      subst hdb2
                      subst hsalid
                      constructor
                      · rw [findDoc_updateDoc_self _
                          ({ req with estado := EstadoDocumento.REQ_ATENDIDO })
                          reqId hreqid req ?hf]
                        · rfl
                        case hf =>
                          show (db.documentos ++ [_]).find?
                            (fun dd => decide (dd.id = reqId)) = some req
                          rw [List.find?_append, hfdreq2]
                          rfl
                      · refine ⟨{ id := db.nextDocId, tipo := TipoDocumento.SAL, numero := none, fecha := db.now, sede := some sedeSalida.id, ubicacion := none, sede_origen := some sedeSalida.id, sede_destino := req.sede, proveedor := none, centro_costo := req.centro_costo, responsable := (some (resp.getD userId)).getD req.responsable, entregado_por := none, estado := EstadoDocumento.BORRADOR, observaciones := "Generado desde " ++ req.numero.getD "REQ sin número", origen := some req.id, recibido := false, recibido_por := none, recibido_en := none, tipo_requerimiento := TipoRequerimiento.LOCAL }, ?_, rfl, rfl, ?_⟩
                        · show ((db.documentos ++ [_]).map _).find?
                            (fun (dd : DocumentoInventario) =>
                              decide (dd.id = db.nextDocId)) = _
                          rw [find?_map_replace_keep _
                            (fun (y : DocumentoInventario) => y.id) _ _
                            (by simp [hreqfresh]) _ ?hall]
                          · rw [List.find?_append]
                            rw [List.find?_eq_none.mpr ?hnone]
                            · rw [List.find?_cons_of_pos _ (by simp)]
                              rfl
                            case hnone =>
                              intro x hx
                              simp only [decide_eq_true_eq]
                              exact hfresh x hx
                          case hall =>
                            intro x hx hxid
                            have hxid2 : x.id = req.id := hxid
                            rw [hxid2]
                            exact decide_eq_false hreqfresh
                        · show some req.id = some reqId
                          rw [hreqid]

theorem sedeOperativa_congr (db db2 : DB) (p : UserProfile)
    (h : db2.sedes = db.sedes) : sedeOperativa db2 p = sedeOperativa db p := by
  unfold sedeOperativa DB.findSede
  rw [h]

theorem normalizar_fst_id (db : DB) (doc : DocumentoInventario)
    (p : UserProfile) :
    (normalizarReqBorradorPorRol db doc p).1.id = doc.id := by
  have key : ∀ (q : DocumentoInventario × Bool),
      (if q.2 = true then (q.1, db.updateDoc q.1) else (q.1, db)).1.id =
        q.1.id := by
    intro q; split <;> rfl
  unfold normalizarReqBorradorPorRol
  split
  · rfl
  · dsimp only []
    rw [key]
    cases p.rol <;> dsimp only [] <;>
      first
        | rfl
        | (split_ifs <;> rfl)
        | (cases hgc : getSedeCentral db <;> dsimp only [] <;>
            split_ifs <;> rfl)

theorem normalizar_snd_len (db : DB) (doc : DocumentoInventario)
    (p : UserProfile) :
    (normalizarReqBorradorPorRol db doc p).2.documentos.length =
      db.documentos.length := by
  have key : ∀ (q : DocumentoInventario × Bool),
      (if q.2 = true then (q.1, db.updateDoc q.1) else (q.1, db)
        ).2.documentos.length = db.documentos.length := by
    intro q
    split
    · exact List.length_map _ _
    · rfl
  unfold normalizarReqBorradorPorRol
  split
  · rfl
  · dsimp only []
    rw [key]

theorem get_or_create_second (userId : Nat) (cc : String) (db : DB)
    (profile : UserProfile) (sede : Sede) (d : DocumentoInventario)
    (hprof : db.findProfile userId = some profile)
    (hsede : sedeOperativa db profile = some sede)
    (hfil : db.documentos.filter (fun dd =>
      dd.tipo = TipoDocumento.REQ ∧ dd.estado = EstadoDocumento.REQ_BORRADOR ∧
      dd.responsable = userId ∧ dd.sede = some sede.id) = [d]) :
    ∃ d2 db2, getOrCreateReqBorrador userId none cc db = .ok (d2, db2) ∧
      d2.id = d.id ∧ db2.documentos.length = db.documentos.length := by
  have heq : getOrCreateReqBorrador userId none cc db =
      .ok (normalizarReqBorradorPorRol db d profile) := by
    unfold getOrCreateReqBorrador
    rw [hprof]
    try dsimp only []
    rw [hsede]
    try dsimp only []
    rw [if_neg (by simp)]
    try dsimp only []
    rw [hfil]
    rfl
  exact ⟨_, _, heq, normalizar_fst_id db d profile,
    normalizar_snd_len db d profile⟩

/-- C10: `get_or_create_req_borrador` keeps at most one draft REQ per
(user, sede): with no matching draft in the database, a call creates
exactly one document, and a second call by the same user at the same sede
returns that same document (same id, after role normalization) without
creating another. -/
theorem get_or_create_req_unico (userId : Nat) (cc : String)
    (db db1 : DB) (d1 : DocumentoInventario) (profile : UserProfile)
    (sede : Sede)
    (hprof : db.findProfile userId = some profile)
    (hsede : sedeOperativa db profile = some sede)
    (hnone : db.documentos.filter (fun dd =>
      dd.tipo = TipoDocumento.REQ ∧ dd.estado = EstadoDocumento.REQ_BORRADOR ∧
      dd.responsable = userId ∧ dd.sede = some sede.id) = [])
    (h1 : getOrCreateReqBorrador userId none cc db = .ok (d1, db1)) :
    db1.documentos.length = db.documentos.length + 1 ∧
    ∃ d2 db2, getOrCreateReqBorrador userId none cc db1 = .ok (d2, db2) ∧
      d2.id = d1.id ∧ db2.documentos.length = db1.documentos.length := by
  unfold getOrCreateReqBorrador at h1
  rw [hprof] at h1
  try dsimp only [] at h1
  rw [hsede] at h1
  try dsimp only [] at h1
  rw [if_neg (by simp)] at h1
  try dsimp only [] at h1
  rw [hnone] at h1
  rw [show latestByFecha [] = none from rfl] at h1
  try dsimp only [] at h1
  injection h1 with h12
  rw [Prod.mk.injEq] at h12
  obtain ⟨hd1, hdb1⟩ := h12
  subst hd1
  subst hdb1
  constructor
  · simp
  · refine get_or_create_second userId cc _ profile sede _ hprof ?_ ?_
    · exact (sedeOperativa_congr _ db profile rfl).trans hsede
    · show (db.documentos ++ [_]).filter _ = _
      rw [List.filter_append, hnone]
      simp

/-- Witness for C10: the ALMACEN user 5 at sede 2 gets draft REQ 1
created on the first call, and a second call returns the same document
without creating another. -/
theorem get_or_create_req_unico_witness :
    c10pair.2.documentos.length = dbC10.documentos.length + 1 ∧
    ∃ d2 db2, getOrCreateReqBorrador 5 none "" c10pair.2 = .ok (d2, db2) ∧
      d2.id = c10pair.1.id ∧
      db2.documentos.length = c10pair.2.documentos.length :=
  get_or_create_req_unico 5 "" dbC10 c10pair.2 c10pair.1 profAlm5 sedeSec2
    (by decide) (by decide) (by decide) (by decide)

/-- Witness for the amended C6: converting the PENDING REQ 10 of `dbC6`
produces SAL 11 in DRAFT with `origen` 10 and leaves REQ 10 in
REQ_ATENDIDO. -/
theorem req_to_sal_marca_atendido_witness :
    (dbC6after.findDoc 10).map (fun dd => dd.estado) =
      some EstadoDocumento.REQ_ATENDIDO ∧
    ∃ sal, dbC6after.findDoc 11 = some sal ∧ sal.tipo = TipoDocumento.SAL ∧
      sal.estado = EstadoDocumento.BORRADOR ∧ sal.origen = some 10 :=
  req_to_sal_marca_atendido 5 10 none dbC6 dbC6after 11 (by decide) (by decide)
    (by decide)

end Telecable
